import Mathlib

/-!
# Customizers of the appsody operator (`pkg/utils/utils.go`)

A shallow embedding of the customization functions of `pkg/utils/utils.go`.

Conventions of the embedding.

* A Go function `func Customize*(target *T, cr *AppsodyApplication)` mutates
  `target` in place; here it is a function from the prior value of the
  target to its value after the call.
* A Go slice is a `List`; the code inspects slices only through `len`,
  indexing and `append`, so the nil slice and the empty slice are both `[]`.
* A Go `map[string]string` is an association list in the order of the map
  literal that builds it, read through `GoMap.lookup`; a map-typed field can
  be nil and is an `Option`.
* A Go pointer field is an `Option`; dereferencing nil panics, and a function
  that can panic returns `Option`, `none` being the panic.  CustomizePersistence
  can panic in two ways, and what it leaves in the target matters: it returns
  an `Outcome`, which holds the target as the call leaves it, and the panic
  value if there is one.
* `resource.MustParse` belongs to `k8s.io/apimachinery`: its parser is a
  parameter `ParseQuantity : String → Option Quantity` of the embedding, `none`
  being a parse error; a size string is well formed when the parser accepts it.
* `int32` is the subtype `GoInt32` of `Int`; a conversion `int32(x)` wraps
  modulo `2^32` (`toInt32`).  `int` is 64 bits wide on every platform the
  operator is built for, and lengths are far below `2^63`, so `len` is a `Nat`.
* String-based Kubernetes enumerations (`ServiceType`, `RestartPolicy`, ...)
  are `String`, as in Go.
* The Kubernetes structures carry the fields the customizers read or write,
  and a few more that they leave alone; the remaining fields of the real
  API types are never touched by this code.
* A field called `Type` in Go is called `Type_` here, `Type` being reserved.
-/

set_option linter.dupNamespace false

namespace Appsody

/-! ## Machine integers -/

/-- Go `int32`: the integers from `-2^31` to `2^31 - 1`. -/
abbrev GoInt32 : Type := { v : Int // -2147483648 ≤ v ∧ v ≤ 2147483647 }

/-- Value of the conversion `int32(v)` of a wider integer: wrap modulo `2^32`. -/
def wrapInt32 (v : Int) : Int := (v + 2147483648) % 4294967296 - 2147483648

/-- Go conversion `int32(v)`. -/
def toInt32 (v : Int) : GoInt32 :=
  ⟨wrapInt32 v, by unfold wrapInt32; omega⟩

/-- Go conversion `int(p)` of an `int32`: exact. -/
def GoInt32.toInt (p : GoInt32) : Int := p.val

/-- Zero value of `int32`. -/
def GoInt32.zero : GoInt32 := ⟨0, by omega⟩

/-! ## Maps -/

/-- Go `map[string]string`, as the list of its entries. -/
abbrev GoMap : Type := List (String × String)

/-- Go map read `m[k]` (with the presence flag): the value bound to `k`. -/
def GoMap.lookup (k : String) : GoMap → Option String
  | [] => none
  | (k', v) :: rest => if k' = k then some v else GoMap.lookup k rest

/-- The keys of a map. -/
def GoMap.keys (m : GoMap) : List String := m.map Prod.fst

/-- Every entry of `m` is an entry of `m'` (`m` is a sub-map of `m'`). -/
def GoMap.subMap (m m' : GoMap) : Bool :=
  m.all (fun kv => GoMap.lookup kv.1 m' == some kv.2)

/-! ## `k8s.io/apimachinery` -/

/-- The `intstr.Type` tag of an `IntOrString`. -/
inductive IntOrStringType where
  | Int
  | String
  deriving DecidableEq, Repr

/-- The `intstr.IntOrString` struct. -/
structure IntOrString where
  Type_ : IntOrStringType
  IntVal : GoInt32
  StrVal : String
  deriving DecidableEq, Repr

/-- Zero value of `IntOrString`. -/
def IntOrString.zero : IntOrString :=
  { Type_ := IntOrStringType.Int, IntVal := GoInt32.zero, StrVal := "" }

/-- The function `intstr.FromInt(val int)`:
`IntOrString{Type: Int, IntVal: int32(val)}`. -/
def FromInt (val : Int) : IntOrString :=
  { Type_ := IntOrStringType.Int, IntVal := toInt32 val, StrVal := "" }

/-- The `metav1.ObjectMeta` struct (embedded in every object, so its fields are
promoted: `obj.Name`, `obj.Labels`). -/
structure ObjectMeta where
  Name : String
  Namespace : String
  Labels : Option GoMap
  Annotations : Option GoMap
  deriving DecidableEq, Repr

/-- Zero value of `ObjectMeta`. -/
def ObjectMeta.zero : ObjectMeta :=
  { Name := "", Namespace := "", Labels := none, Annotations := none }

/-- The `resource.Quantity` struct, as unscaled value, decimal scale and format. -/
structure Quantity where
  Value : Int
  Scale : Int
  Format : String
  deriving DecidableEq, Repr

/-- Go `corev1.ResourceList`, a `map[ResourceName]Quantity`. -/
abbrev ResourceList : Type := List (String × Quantity)

/-! ## `k8s.io/api/core/v1` -/

/-- The `corev1.ResourceRequirements` struct. -/
structure ResourceRequirements where
  Limits : Option ResourceList
  Requests : Option ResourceList
  deriving DecidableEq, Repr

/-- Zero value of `ResourceRequirements`. -/
def ResourceRequirements.zero : ResourceRequirements :=
  { Limits := none, Requests := none }

/-- The `corev1.Probe` struct (copied whole by the code). -/
structure Probe where
  Handler : String
  InitialDelaySeconds : GoInt32
  PeriodSeconds : GoInt32
  deriving DecidableEq, Repr

/-- The `corev1.VolumeMount` struct (copied whole by the code). -/
structure VolumeMount where
  Name : String
  ReadOnly : Bool
  MountPath : String
  deriving DecidableEq, Repr

/-- The `corev1.EnvVar` struct (copied whole by the code). -/
structure EnvVar where
  Name : String
  Value : String
  deriving DecidableEq, Repr

/-- The `corev1.EnvFromSource` struct (copied whole by the code). -/
structure EnvFromSource where
  Prefix : String
  ConfigMapRef : Option String
  SecretRef : Option String
  deriving DecidableEq, Repr

/-- The `corev1.Volume` struct (copied whole by the code). -/
structure Volume where
  Name : String
  VolumeSource : String
  deriving DecidableEq, Repr

/-- The `corev1.ContainerPort` struct. -/
structure ContainerPort where
  Name : String
  HostPort : GoInt32
  ContainerPort : GoInt32
  Protocol : String
  HostIP : String
  deriving DecidableEq, Repr

/-- Zero value `corev1.ContainerPort{}`. -/
def ContainerPort.zero : Appsody.ContainerPort :=
  { Name := "", HostPort := GoInt32.zero, ContainerPort := GoInt32.zero,
    Protocol := "", HostIP := "" }

/-- The `corev1.Container` struct. -/
structure Container where
  Name : String
  Image : String
  Command : List String
  Args : List String
  WorkingDir : String
  Ports : List ContainerPort
  EnvFrom : List EnvFromSource
  Env : List EnvVar
  Resources : ResourceRequirements
  VolumeMounts : List VolumeMount
  LivenessProbe : Option Probe
  ReadinessProbe : Option Probe
  ImagePullPolicy : String
  deriving DecidableEq, Repr

/-- Zero value `corev1.Container{}`. -/
def Container.zero : Container :=
  { Name := "", Image := "", Command := [], Args := [], WorkingDir := "",
    Ports := [], EnvFrom := [], Env := [], Resources := ResourceRequirements.zero,
    VolumeMounts := [], LivenessProbe := none, ReadinessProbe := none,
    ImagePullPolicy := "" }

/-- The `corev1.NodeSelectorRequirement` struct. -/
structure NodeSelectorRequirement where
  Key : String
  Operator : String
  Values : List String
  deriving DecidableEq, Repr

/-- The `corev1.NodeSelectorTerm` struct. -/
structure NodeSelectorTerm where
  MatchExpressions : List NodeSelectorRequirement
  MatchFields : List NodeSelectorRequirement
  deriving DecidableEq, Repr

/-- The `corev1.NodeSelector` struct. -/
structure NodeSelector where
  NodeSelectorTerms : List NodeSelectorTerm
  deriving DecidableEq, Repr

/-- The `corev1.PreferredSchedulingTerm` struct. -/
structure PreferredSchedulingTerm where
  Weight : GoInt32
  Preference : NodeSelectorTerm
  deriving DecidableEq, Repr

/-- The `corev1.NodeAffinity` struct. -/
structure NodeAffinity where
  RequiredDuringSchedulingIgnoredDuringExecution : Option NodeSelector
  PreferredDuringSchedulingIgnoredDuringExecution : List PreferredSchedulingTerm
  deriving DecidableEq, Repr

/-- The `corev1.PodAffinityTerm` struct. -/
structure PodAffinityTerm where
  Namespaces : List String
  TopologyKey : String
  deriving DecidableEq, Repr

/-- The `corev1.WeightedPodAffinityTerm` struct. -/
structure WeightedPodAffinityTerm where
  Weight : GoInt32
  PodAffinityTerm : PodAffinityTerm
  deriving DecidableEq, Repr

/-- The `corev1.PodAffinity` struct. -/
structure PodAffinity where
  RequiredDuringSchedulingIgnoredDuringExecution : List PodAffinityTerm
  PreferredDuringSchedulingIgnoredDuringExecution : List WeightedPodAffinityTerm
  deriving DecidableEq, Repr

/-- The `corev1.PodAntiAffinity` struct. -/
structure PodAntiAffinity where
  RequiredDuringSchedulingIgnoredDuringExecution : List PodAffinityTerm
  PreferredDuringSchedulingIgnoredDuringExecution : List WeightedPodAffinityTerm
  deriving DecidableEq, Repr

/-- The `corev1.Affinity` struct. -/
structure Affinity where
  NodeAffinity : Option NodeAffinity
  PodAffinity : Option PodAffinity
  PodAntiAffinity : Option PodAntiAffinity
  deriving DecidableEq, Repr

/-- Zero value `corev1.Affinity{}`. -/
def Affinity.zero : Affinity :=
  { NodeAffinity := none, PodAffinity := none, PodAntiAffinity := none }

/-- The `corev1.PodSpec` struct. -/
structure PodSpec where
  Volumes : List Volume
  InitContainers : List Container
  Containers : List Container
  RestartPolicy : String
  DNSPolicy : String
  NodeSelector : Option GoMap
  ServiceAccountName : String
  NodeName : String
  Affinity : Option Affinity
  deriving DecidableEq, Repr

/-- The `corev1.PodTemplateSpec` struct. -/
structure PodTemplateSpec extends ObjectMeta where
  Spec : PodSpec
  deriving DecidableEq, Repr

/-- The `corev1.ServicePort` struct. -/
structure ServicePort where
  Name : String
  Protocol : String
  Port : GoInt32
  TargetPort : IntOrString
  NodePort : GoInt32
  deriving DecidableEq, Repr

/-- Zero value `corev1.ServicePort{}`. -/
def ServicePort.zero : ServicePort :=
  { Name := "", Protocol := "", Port := GoInt32.zero, TargetPort := IntOrString.zero,
    NodePort := GoInt32.zero }

/-- The `corev1.ServiceSpec` struct. -/
structure ServiceSpec where
  Ports : List ServicePort
  Selector : Option GoMap
  ClusterIP : String
  Type_ : String
  ExternalIPs : List String
  SessionAffinity : String
  deriving DecidableEq, Repr

/-- The `corev1.Service` struct. -/
structure Service extends ObjectMeta where
  Spec : ServiceSpec
  deriving DecidableEq, Repr

/-- The `corev1.LocalObjectReference` struct. -/
structure LocalObjectReference where
  Name : String
  deriving DecidableEq, Repr

/-- The `corev1.ObjectReference` struct. -/
structure ObjectReference where
  Kind : String
  Namespace : String
  Name : String
  deriving DecidableEq, Repr

/-- The `corev1.ServiceAccount` struct. -/
structure ServiceAccount extends ObjectMeta where
  Secrets : List ObjectReference
  ImagePullSecrets : List LocalObjectReference
  AutomountServiceAccountToken : Option Bool
  deriving DecidableEq, Repr

/-- The `corev1.PersistentVolumeClaimSpec` struct. -/
structure PersistentVolumeClaimSpec where
  AccessModes : List String
  Resources : ResourceRequirements
  VolumeName : String
  StorageClassName : Option String
  deriving DecidableEq, Repr

/-- The `corev1.PersistentVolumeClaim` struct. -/
structure PersistentVolumeClaim extends ObjectMeta where
  Spec : PersistentVolumeClaimSpec
  deriving DecidableEq, Repr

/-- The constant `corev1.NodeSelectorOpIn`. -/
def NodeSelectorOpIn : String := "In"

/-- The constant `corev1.RestartPolicyAlways`. -/
def RestartPolicyAlways : String := "Always"

/-- The constant `corev1.DNSClusterFirst`. -/
def DNSClusterFirst : String := "ClusterFirst"

/-- The constant `corev1.ReadWriteOnce`. -/
def ReadWriteOnce : String := "ReadWriteOnce"

/-- The constant `corev1.ResourceStorage`. -/
def ResourceStorage : String := "storage"

/-! ## `k8s.io/api/apps/v1`, `k8s.io/api/autoscaling/v1`, `openshift/api/route/v1` -/

/-- The `appsv1.StatefulSetSpec` struct. -/
structure StatefulSetSpec where
  Replicas : Option GoInt32
  Template : PodTemplateSpec
  VolumeClaimTemplates : List PersistentVolumeClaim
  ServiceName : String
  deriving DecidableEq, Repr

/-- The `appsv1.StatefulSet` struct. -/
structure StatefulSet extends ObjectMeta where
  Spec : StatefulSetSpec
  deriving DecidableEq, Repr

/-- The `autoscalingv1.CrossVersionObjectReference` struct. -/
structure CrossVersionObjectReference where
  Kind : String
  Name : String
  APIVersion : String
  deriving DecidableEq, Repr

/-- The `autoscalingv1.HorizontalPodAutoscalerSpec` struct. -/
structure HorizontalPodAutoscalerSpec where
  ScaleTargetRef : CrossVersionObjectReference
  MinReplicas : Option GoInt32
  MaxReplicas : GoInt32
  TargetCPUUtilizationPercentage : Option GoInt32
  deriving DecidableEq, Repr

/-- The `autoscalingv1.HorizontalPodAutoscaler` struct. -/
structure HorizontalPodAutoscaler extends ObjectMeta where
  Spec : HorizontalPodAutoscalerSpec
  deriving DecidableEq, Repr

/-- The `routev1.RouteTargetReference` struct. -/
structure RouteTargetReference where
  Kind : String
  Name : String
  Weight : Option GoInt32
  deriving DecidableEq, Repr

/-- The `routev1.RoutePort` struct. -/
structure RoutePort where
  TargetPort : IntOrString
  deriving DecidableEq, Repr

/-- Zero value `routev1.RoutePort{}`. -/
def RoutePort.zero : RoutePort := { TargetPort := IntOrString.zero }

/-- The `routev1.RouteSpec` struct. -/
structure RouteSpec where
  Host : String
  Path : String
  To : RouteTargetReference
  AlternateBackends : List RouteTargetReference
  Port : Option RoutePort
  WildcardPolicy : String
  deriving DecidableEq, Repr

/-- The `routev1.Route` struct. -/
structure Route extends ObjectMeta where
  Spec : RouteSpec
  deriving DecidableEq, Repr

/-! ## The custom resource (`pkg/apis/appsody/v1alpha1`)

The type declarations of the custom resource are not part of the sources at
hand; the fields below are the ones `utils.go` reads, with the types its
expressions force (`cr.Spec.Storage != nil`, `*cr.Spec.Autoscaling.MaxReplicas`,
`len(cr.Spec.Architecture)`, ...). -/

/-- Modelled from the spec: the declaration of `AppsodyApplicationService` is
missing; the data model lists `Service{Port, Type}`, `utils.go` reads `Port`
as an `int32` and `Type` as a `corev1.ServiceType`. -/
structure AppsodyApplicationService where
  Port : GoInt32
  Type_ : String
  deriving DecidableEq, Repr

/-- Modelled from the spec: the declaration of `AppsodyApplicationAutoScaling`
is missing; the data model lists
`Autoscaling{MinReplicas, MaxReplicas, TargetCPUUtilizationPercentage}`,
`utils.go` dereferences `MaxReplicas` and copies the other two to `*int32`
fields. -/
structure AppsodyApplicationAutoScaling where
  MinReplicas : Option GoInt32
  MaxReplicas : Option GoInt32
  TargetCPUUtilizationPercentage : Option GoInt32
  deriving DecidableEq, Repr

/-- Modelled from the spec: the declaration of `AppsodyApplicationStorage` is
missing; it "carries either an explicit volume-claim template or a size
string", `utils.go` compares `VolumeClaimTemplate` with nil and parses `Size`. -/
structure AppsodyApplicationStorage where
  Size : String
  VolumeClaimTemplate : Option PersistentVolumeClaim
  deriving DecidableEq, Repr

/-- Modelled from the spec: the declaration of `AppsodyApplicationSpec` is
missing; these are the fields of the data model, typed as `utils.go` uses them. -/
structure AppsodyApplicationSpec where
  ApplicationImage : String
  Replicas : Option GoInt32
  Autoscaling : AppsodyApplicationAutoScaling
  PullPolicy : String
  PullSecret : String
  Volumes : List Volume
  VolumeMounts : List VolumeMount
  ResourceConstraints : ResourceRequirements
  ReadinessProbe : Option Probe
  LivenessProbe : Option Probe
  Service : AppsodyApplicationService
  EnvFrom : List EnvFromSource
  Env : List EnvVar
  ServiceAccountName : String
  Architecture : List String
  Storage : Option AppsodyApplicationStorage
  deriving DecidableEq, Repr

/-- Modelled from the spec: the declaration of `AppsodyApplication` is missing;
it embeds `metav1.ObjectMeta` (`cr.Name`, `cr.Namespace`) and has a `Spec`. -/
structure AppsodyApplication extends ObjectMeta where
  Spec : AppsodyApplicationSpec
  deriving DecidableEq, Repr

/-! ## The functions of `pkg/utils/utils.go` -/

/-- GetLabels of `utils.go`: the two identity labels of a custom resource. -/
def GetLabels (cr : AppsodyApplication) : GoMap :=
  [("app.kubernetes.io/name", cr.Name),
   ("app.kubernetes.io/managed-by", "appsody-operator")]

/-- CustomizeRoute of `utils.go`. -/
def CustomizeRoute (route : Route) (cr : AppsodyApplication) : Route :=
  -- route.Labels = GetLabels(cr)
  let route : Route := { route with Labels := some (GetLabels cr) }
  -- route.Spec.To.Kind = "Service"
  let route : Route :=
    { route with Spec := { route.Spec with To := { route.Spec.To with Kind := "Service" } } }
  -- route.Spec.To.Name = cr.Name
  let route : Route :=
    { route with Spec := { route.Spec with To := { route.Spec.To with Name := cr.Name } } }
  -- weight := int32(100); route.Spec.To.Weight = &weight
  let weight : GoInt32 := toInt32 100
  let route : Route :=
    { route with Spec := { route.Spec with To := { route.Spec.To with Weight := some weight } } }
  -- if route.Spec.Port == nil { route.Spec.Port = &routev1.RoutePort{} }
  let port : RoutePort :=
    match route.Spec.Port with
    | none => RoutePort.zero
    | some p => p
  -- route.Spec.Port.TargetPort = intstr.FromInt(int(cr.Spec.Service.Port))
  let port : RoutePort := { port with TargetPort := FromInt cr.Spec.Service.Port.toInt }
  { route with Spec := { route.Spec with Port := some port } }

/-- CustomizeService of `utils.go`.  The two assignments through
`svc.Spec.Ports[0]` run on a list that the preceding `if` has made non-empty. -/
def CustomizeService (svc : Service) (cr : AppsodyApplication) : Service :=
  -- svc.Labels = GetLabels(cr)
  let svc : Service := { svc with Labels := some (GetLabels cr) }
  -- if len(svc.Spec.Ports) == 0 { svc.Spec.Ports = append(svc.Spec.Ports, corev1.ServicePort{}) }
  let svc : Service :=
    if svc.Spec.Ports.length = 0 then
      { svc with Spec := { svc.Spec with Ports := svc.Spec.Ports ++ [ServicePort.zero] } }
    else svc
  -- svc.Spec.Ports[0].Port = cr.Spec.Service.Port
  let svc : Service :=
    { svc with Spec := { svc.Spec with
        Ports := svc.Spec.Ports.modifyHead
          (fun p => { p with Port := cr.Spec.Service.Port }) } }
  -- svc.Spec.Ports[0].TargetPort = intstr.FromInt(int(cr.Spec.Service.Port))
  let svc : Service :=
    { svc with Spec := { svc.Spec with
        Ports := svc.Spec.Ports.modifyHead
          (fun p => { p with TargetPort := FromInt cr.Spec.Service.Port.toInt }) } }
  -- svc.Spec.Type = cr.Spec.Service.Type
  let svc : Service := { svc with Spec := { svc.Spec with Type_ := cr.Spec.Service.Type_ } }
  -- svc.Spec.Selector = map[string]string{"app.kubernetes.io/name": cr.Name}
  { svc with Spec := { svc.Spec with Selector := some [("app.kubernetes.io/name", cr.Name)] } }

/-- The `term` literal in the loop of CustomizeAffinity, for `archs = len(Architecture)`,
index `i` and `arch = Architecture[i]`; the weight is `int32(archs - i)`. -/
def CustomizeAffinity.term (archs i : Nat) (arch : String) : PreferredSchedulingTerm :=
  { Weight := toInt32 ((archs : Int) - (i : Int))
    Preference :=
      { MatchExpressions :=
          [{ Operator := NodeSelectorOpIn, Values := [arch], Key := "beta.kubernetes.io/arch" }]
        MatchFields := [] } }

/-- Body of the loop of CustomizeAffinity for index `i` and `arch = Architecture[i]`:
build the preferred term and append it to the preferred list of `na`. -/
def CustomizeAffinity.step (archs : Nat) (na : NodeAffinity) (ia : Nat × String) :
    NodeAffinity :=
  { na with
    PreferredDuringSchedulingIgnoredDuringExecution :=
      na.PreferredDuringSchedulingIgnoredDuringExecution ++
        [CustomizeAffinity.term archs ia.1 ia.2] }

/-- CustomizeAffinity of `utils.go`.  The loop `for i := range cr.Spec.Architecture`
is a left fold over the pairs `(i, cr.Spec.Architecture[i])` in index order. -/
def CustomizeAffinity (a : Affinity) (cr : AppsodyApplication) : Affinity :=
  -- a.NodeAffinity = &corev1.NodeAffinity{RequiredDuringSchedulingIgnoredDuringExecution: ...}
  let na : NodeAffinity :=
    { RequiredDuringSchedulingIgnoredDuringExecution :=
        some { NodeSelectorTerms :=
          [{ MatchExpressions :=
               [{ Operator := NodeSelectorOpIn, Values := cr.Spec.Architecture,
                  Key := "beta.kubernetes.io/arch" }]
             MatchFields := [] }] }
      PreferredDuringSchedulingIgnoredDuringExecution := [] }
  -- archs := len(cr.Spec.Architecture)
  let archs : Nat := cr.Spec.Architecture.length
  -- for i := range cr.Spec.Architecture { ... }
  let na : NodeAffinity := cr.Spec.Architecture.enum.foldl (CustomizeAffinity.step archs) na
  { a with NodeAffinity := some na }

/-- The statements of CustomizePodSpec that assign through
`pts.Spec.Containers[0]`, in source order, as a function of that container. -/
def CustomizePodSpec.container0 (cr : AppsodyApplication) (c : Container) : Container :=
  -- pts.Spec.Containers[0].Name = "app"
  let c : Container := { c with Name := "app" }
  -- if len(pts.Spec.Containers[0].Ports) == 0 { append(..., corev1.ContainerPort{}) }
  let c : Container :=
    if c.Ports.length = 0 then { c with Ports := c.Ports ++ [ContainerPort.zero] } else c
  -- pts.Spec.Containers[0].Ports[0].ContainerPort = cr.Spec.Service.Port
  let c : Container :=
    { c with
      Ports := c.Ports.modifyHead (fun p => { p with ContainerPort := cr.Spec.Service.Port }) }
  -- Image, Resources, ReadinessProbe, LivenessProbe, VolumeMounts, ImagePullPolicy, Env, EnvFrom
  let c : Container := { c with Image := cr.Spec.ApplicationImage }
  let c : Container := { c with Resources := cr.Spec.ResourceConstraints }
  let c : Container := { c with ReadinessProbe := cr.Spec.ReadinessProbe }
  let c : Container := { c with LivenessProbe := cr.Spec.LivenessProbe }
  let c : Container := { c with VolumeMounts := cr.Spec.VolumeMounts }
  let c : Container := { c with ImagePullPolicy := cr.Spec.PullPolicy }
  let c : Container := { c with Env := cr.Spec.Env }
  { c with EnvFrom := cr.Spec.EnvFrom }

/-- CustomizePodSpec of `utils.go`.  The assignments through
`pts.Spec.Containers[0]` and `...Ports[0]` run on lists that the preceding
`if` statements have made non-empty. -/
def CustomizePodSpec (pts : PodTemplateSpec) (cr : AppsodyApplication) : PodTemplateSpec :=
  -- pts.Labels = GetLabels(cr)
  let pts : PodTemplateSpec := { pts with Labels := some (GetLabels cr) }
  -- if len(pts.Spec.Containers) == 0 { append(pts.Spec.Containers, corev1.Container{}) }
  let pts : PodTemplateSpec :=
    if pts.Spec.Containers.length = 0 then
      { pts with Spec := { pts.Spec with Containers := pts.Spec.Containers ++ [Container.zero] } }
    else pts
  -- pts.Spec.Containers[0].Name = "app" ... pts.Spec.Containers[0].EnvFrom = cr.Spec.EnvFrom
  let pts : PodTemplateSpec :=
    { pts with Spec := { pts.Spec with Containers := pts.Spec.Containers.modifyHead (CustomizePodSpec.container0 cr) } }
  -- pts.Spec.Volumes = cr.Spec.Volumes
  let pts : PodTemplateSpec := { pts with Spec := { pts.Spec with Volumes := cr.Spec.Volumes } }
  -- if cr.Spec.ServiceAccountName != "" { ... } else { ... }
  let pts : PodTemplateSpec :=
    if cr.Spec.ServiceAccountName ≠ "" then
      { pts with Spec := { pts.Spec with ServiceAccountName := cr.Spec.ServiceAccountName } }
    else
      { pts with Spec := { pts.Spec with ServiceAccountName := cr.Name } }
  -- pts.Spec.RestartPolicy = corev1.RestartPolicyAlways
  let pts : PodTemplateSpec :=
    { pts with Spec := { pts.Spec with RestartPolicy := RestartPolicyAlways } }
  -- pts.Spec.DNSPolicy = corev1.DNSClusterFirst
  let pts : PodTemplateSpec :=
    { pts with Spec := { pts.Spec with DNSPolicy := DNSClusterFirst } }
  -- if len(cr.Spec.Architecture) > 0 { pts.Spec.Affinity = &corev1.Affinity{}; CustomizeAffinity(...) }
  if cr.Spec.Architecture.length > 0 then
    { pts with Spec := { pts.Spec with Affinity := some (CustomizeAffinity Affinity.zero cr) } }
  else pts

/-- CustomizeServiceAccount of `utils.go`. -/
def CustomizeServiceAccount (sa : ServiceAccount) (cr : AppsodyApplication) : ServiceAccount :=
  -- sa.Labels = GetLabels(cr)
  let sa : ServiceAccount := { sa with Labels := some (GetLabels cr) }
  if sa.ImagePullSecrets.length = 0 then
    -- sa.ImagePullSecrets = append(sa.ImagePullSecrets, LocalObjectReference{Name: cr.Spec.PullSecret})
    { sa with ImagePullSecrets := sa.ImagePullSecrets ++ [{ Name := cr.Spec.PullSecret }] }
  else
    -- sa.ImagePullSecrets[0].Name = cr.Spec.PullSecret
    { sa with
      ImagePullSecrets :=
        sa.ImagePullSecrets.modifyHead (fun r => { r with Name := cr.Spec.PullSecret }) }

/-- CustomizeHPA of `utils.go`.  `*cr.Spec.Autoscaling.MaxReplicas` panics on
a nil pointer: the result is then `none`. -/
def CustomizeHPA (hpa : HorizontalPodAutoscaler) (cr : AppsodyApplication) :
    Option HorizontalPodAutoscaler :=
  -- hpa.Labels = GetLabels(cr)
  let hpa : HorizontalPodAutoscaler := { hpa with Labels := some (GetLabels cr) }
  -- hpa.Spec.MaxReplicas = *cr.Spec.Autoscaling.MaxReplicas
  match cr.Spec.Autoscaling.MaxReplicas with
  | none => none
  | some maxReplicas =>
    let hpa : HorizontalPodAutoscaler :=
      { hpa with Spec := { hpa.Spec with MaxReplicas := maxReplicas } }
    -- hpa.Spec.MinReplicas = cr.Spec.Autoscaling.MinReplicas
    let hpa : HorizontalPodAutoscaler :=
      { hpa with Spec := { hpa.Spec with MinReplicas := cr.Spec.Autoscaling.MinReplicas } }
    -- hpa.Spec.TargetCPUUtilizationPercentage = cr.Spec.Autoscaling.TargetCPUUtilizationPercentage
    let hpa : HorizontalPodAutoscaler :=
      { hpa with Spec := { hpa.Spec with
          TargetCPUUtilizationPercentage := cr.Spec.Autoscaling.TargetCPUUtilizationPercentage } }
    -- hpa.Spec.ScaleTargetRef.Name = cr.Name
    let hpa : HorizontalPodAutoscaler :=
      { hpa with Spec := { hpa.Spec with
          ScaleTargetRef := { hpa.Spec.ScaleTargetRef with Name := cr.Name } } }
    -- hpa.Spec.ScaleTargetRef.APIVersion = "apps/v1"
    let hpa : HorizontalPodAutoscaler :=
      { hpa with Spec := { hpa.Spec with
          ScaleTargetRef := { hpa.Spec.ScaleTargetRef with APIVersion := "apps/v1" } } }
    -- if cr.Spec.Storage != nil { Kind = "StatefulSet" } else { Kind = "Deployment" }
    if cr.Spec.Storage ≠ none then
      some { hpa with Spec := { hpa.Spec with
          ScaleTargetRef := { hpa.Spec.ScaleTargetRef with Kind := "StatefulSet" } } }
    else
      some { hpa with Spec := { hpa.Spec with
          ScaleTargetRef := { hpa.Spec.ScaleTargetRef with Kind := "Deployment" } } }

/-- The value a Go panic carries: a nil-pointer dereference, or the error
`cannot parse '<str>': ...` that `resource.MustParse` panics with. -/
inductive Panic where
  | nilPointerDereference
  | cannotParse (str : String)
  deriving DecidableEq, Repr

/-- How a call that mutates its target ends: it returns, or it panics; in both
cases `target` is the target as the call leaves it. -/
inductive Outcome (α : Type) where
  | returned (target : α)
  | panicked (value : Panic) (target : α)
  deriving DecidableEq, Repr

/-- The target as the call leaves it. -/
def Outcome.target {α : Type} : Outcome α → α
  | Outcome.returned t => t
  | Outcome.panicked _ t => t

/-- Whether the call returned. -/
def Outcome.succeeded {α : Type} : Outcome α → Bool
  | Outcome.returned _ => true
  | Outcome.panicked _ _ => false

/-- The function `resource.MustParse(str)`: the parsed quantity, or a panic when
`ParseQuantity` reports an error. -/
def MustParse (ParseQuantity : String → Option Quantity) (str : String) :
    Except Panic Quantity :=
  match ParseQuantity str with
  | some q => Except.ok q
  | none => Except.error (Panic.cannotParse str)

/-- CustomizePersistence of `utils.go`.  `cr.Spec.Storage` is a pointer, read
only inside the `if`; the claim literal is built (and `MustParse` run) before
the `append` that assigns to the target. -/
def CustomizePersistence (ParseQuantity : String → Option Quantity)
    (statefulSet : StatefulSet) (cr : AppsodyApplication) : Outcome StatefulSet :=
  -- if len(statefulSet.Spec.VolumeClaimTemplates) == 0 {
  if statefulSet.Spec.VolumeClaimTemplates.length = 0 then
    match cr.Spec.Storage with
    | none => Outcome.panicked Panic.nilPointerDereference statefulSet
    | some storage =>
      -- if cr.Spec.Storage.VolumeClaimTemplate != nil { pvc = cr.Spec.Storage.VolumeClaimTemplate }
      match storage.VolumeClaimTemplate with
      | some pvc =>
        -- statefulSet.Spec.VolumeClaimTemplates = append(..., *pvc)
        Outcome.returned
          { statefulSet with
            Spec := { statefulSet.Spec with
              VolumeClaimTemplates := statefulSet.Spec.VolumeClaimTemplates ++ [pvc] } }
      | none =>
        -- else { pvc = &corev1.PersistentVolumeClaim{ ... resource.MustParse(cr.Spec.Storage.Size) ... } }
        match MustParse ParseQuantity storage.Size with
        | Except.error value => Outcome.panicked value statefulSet
        | Except.ok quantity =>
          let pvc : PersistentVolumeClaim :=
            { Name := "pvc"
              Namespace := cr.Namespace
              Labels := some (GetLabels cr)
              Annotations := none
              Spec :=
                { Resources :=
                    { Limits := none
                      Requests := some [(ResourceStorage, quantity)] }
                  AccessModes := [ReadWriteOnce]
                  VolumeName := ""
                  StorageClassName := none } }
          -- statefulSet.Spec.VolumeClaimTemplates = append(..., *pvc)
          Outcome.returned
            { statefulSet with
              Spec := { statefulSet.Spec with
                VolumeClaimTemplates := statefulSet.Spec.VolumeClaimTemplates ++ [pvc] } }
  else Outcome.returned statefulSet

/-! ## Observations on results -/

/-- The preferred node-affinity terms of an affinity (none when the node
affinity is absent). -/
def preferredTerms (a : Affinity) : List PreferredSchedulingTerm :=
  match a.NodeAffinity with
  | none => []
  | some na => na.PreferredDuringSchedulingIgnoredDuringExecution

/-- The weights of the preferred node-affinity terms, in list order. -/
def preferredWeights (a : Affinity) : List Int :=
  (preferredTerms a).map (fun t => t.Weight.val)

/-- The required node selector of an affinity, if any. -/
def requiredSelector (a : Affinity) : Option NodeSelector :=
  match a.NodeAffinity with
  | none => none
  | some na => na.RequiredDuringSchedulingIgnoredDuringExecution

/-- The node-selector term the affinity compiler builds for a list of values:
one requirement, operator `In`, key `beta.kubernetes.io/arch`. -/
def archTerm (values : List String) : NodeSelectorTerm :=
  { MatchExpressions :=
      [{ Key := "beta.kubernetes.io/arch", Operator := "In", Values := values }]
    MatchFields := [] }

/-- Go map read `requests[name]` on a resource list. -/
def ResourceList.lookup (name : String) : ResourceList → Option Quantity
  | [] => none
  | (k, q) :: rest => if k = name then some q else ResourceList.lookup name rest

/-- The storage request of a volume claim: `Spec.Resources.Requests["storage"]`. -/
def storageRequest (pvc : PersistentVolumeClaim) : Option Quantity :=
  match pvc.Spec.Resources.Requests with
  | none => none
  | some requests => ResourceList.lookup ResourceStorage requests

/-! ## Sample inputs -/

/-- A custom resource with the given name, service port and architectures, every
other field at its zero value. -/
def sampleCR (name : String) (port : GoInt32) (archs : List String) : AppsodyApplication :=
  { Name := name, Namespace := "", Labels := none, Annotations := none
    Spec :=
      { ApplicationImage := "", Replicas := none
        Autoscaling := { MinReplicas := none, MaxReplicas := none,
                         TargetCPUUtilizationPercentage := none }
        PullPolicy := "", PullSecret := "", Volumes := [], VolumeMounts := []
        ResourceConstraints := ResourceRequirements.zero
        ReadinessProbe := none, LivenessProbe := none
        Service := { Port := port, Type_ := "" }
        EnvFrom := [], Env := [], ServiceAccountName := "", Architecture := archs
        Storage := none } }

/-- The sample resource with `Autoscaling.MaxReplicas` set to `maxReplicas` and
`Storage` as given. -/
def sampleAutoscaledCR (name : String) (maxReplicas : GoInt32)
    (storage : Option AppsodyApplicationStorage) : AppsodyApplication :=
  { sampleCR name ⟨8000, by decide⟩ [] with
    Spec :=
      { (sampleCR name ⟨8000, by decide⟩ []).Spec with
        Autoscaling := { MinReplicas := none, MaxReplicas := some maxReplicas,
                         TargetCPUUtilizationPercentage := none }
        Storage := storage } }

/-- Zero value `corev1.Service{}`. -/
def Service.zero : Service :=
  { Name := "", Namespace := "", Labels := none, Annotations := none
    Spec := { Ports := [], Selector := none, ClusterIP := "", Type_ := "",
              ExternalIPs := [], SessionAffinity := "" } }

/-- Zero value `corev1.PodTemplateSpec{}`. -/
def PodTemplateSpec.zero : PodTemplateSpec :=
  { Name := "", Namespace := "", Labels := none, Annotations := none
    Spec := { Volumes := [], InitContainers := [], Containers := [], RestartPolicy := "",
              DNSPolicy := "", NodeSelector := none, ServiceAccountName := "",
              NodeName := "", Affinity := none } }

/-- Zero value `corev1.ServiceAccount{}`. -/
def ServiceAccount.zero : ServiceAccount :=
  { Name := "", Namespace := "", Labels := none, Annotations := none
    Secrets := [], ImagePullSecrets := [], AutomountServiceAccountToken := none }

/-- Zero value `autoscalingv1.HorizontalPodAutoscaler{}`. -/
def HorizontalPodAutoscaler.zero : HorizontalPodAutoscaler :=
  { Name := "", Namespace := "", Labels := none, Annotations := none
    Spec := { ScaleTargetRef := { Kind := "", Name := "", APIVersion := "" },
              MinReplicas := none, MaxReplicas := GoInt32.zero,
              TargetCPUUtilizationPercentage := none } }

/-- Zero value `routev1.Route{}`. -/
def Route.zero : Route :=
  { Name := "", Namespace := "", Labels := none, Annotations := none
    Spec := { Host := "", Path := "", To := { Kind := "", Name := "", Weight := none },
              AlternateBackends := [], Port := none, WildcardPolicy := "" } }

/-- An autoscaler that points at a `Deployment` called `old`. -/
def sampleHPA : HorizontalPodAutoscaler :=
  { HorizontalPodAutoscaler.zero with
    Spec := { HorizontalPodAutoscaler.zero.Spec with
      ScaleTargetRef := { Kind := "Deployment", Name := "old", APIVersion := "v1" } } }

/-- A pod template with one container called `old` that declares no port, a
prior service-account name and prior restart and DNS policies. -/
def samplePodTemplate : PodTemplateSpec :=
  { PodTemplateSpec.zero with
    Spec := { PodTemplateSpec.zero.Spec with
      Containers := [{ Container.zero with Name := "old", Command := ["run"] }]
      RestartPolicy := "Never"
      DNSPolicy := "Default"
      ServiceAccountName := "prior" } }

/-- A stand-in for `resource.ParseQuantity` on the sizes of the samples: it
accepts `1Gi`, `2Gi` and `5Gi` and rejects every other string. -/
def sampleParseQuantity (str : String) : Option Quantity :=
  if str = "1Gi" then some { Value := 1073741824, Scale := 0, Format := "BinarySI" }
  else if str = "2Gi" then some { Value := 2147483648, Scale := 0, Format := "BinarySI" }
  else if str = "5Gi" then some { Value := 5368709120, Scale := 0, Format := "BinarySI" }
  else none

/-- The sample resource named `example-app` in namespace `apps`, with the given storage. -/
def sampleStorageCR (storage : AppsodyApplicationStorage) : AppsodyApplication :=
  { sampleCR "example-app" ⟨8000, by decide⟩ [] with
    Namespace := "apps"
    Spec := { (sampleCR "example-app" ⟨8000, by decide⟩ []).Spec with Storage := some storage } }

/-- A volume claim called `data` that requests `5Gi` of storage. -/
def sampleClaim : PersistentVolumeClaim :=
  { Name := "data", Namespace := "apps", Labels := none, Annotations := none
    Spec :=
      { AccessModes := ["ReadWriteMany"]
        Resources :=
          { Limits := none
            Requests := some [("storage",
              { Value := 5368709120, Scale := 0, Format := "BinarySI" })] }
        VolumeName := ""
        StorageClassName := none } }

/-- Zero value `appsv1.StatefulSet{}`. -/
def StatefulSet.zero : StatefulSet :=
  { Name := "", Namespace := "", Labels := none, Annotations := none
    Spec := { Replicas := none, Template := PodTemplateSpec.zero,
              VolumeClaimTemplates := [], ServiceName := "" } }

/-- A stateful set with prior labels and no volume-claim template. -/
def sampleStatefulSet : StatefulSet :=
  { StatefulSet.zero with Name := "example-app", Labels := some [("team", "payments")] }

/-- A service account with two prior image-pull secrets. -/
def sampleServiceAccount : ServiceAccount :=
  { ServiceAccount.zero with ImagePullSecrets := [{ Name := "first" }, { Name := "second" }] }

/-- A prior affinity with a pod-affinity part and one accumulated preferred node term. -/
def sampleAffinity : Affinity :=
  { NodeAffinity :=
      some { RequiredDuringSchedulingIgnoredDuringExecution := none
             PreferredDuringSchedulingIgnoredDuringExecution :=
               [{ Weight := ⟨7, by decide⟩, Preference := archTerm ["arm64"] }] }
    PodAffinity :=
      some { RequiredDuringSchedulingIgnoredDuringExecution :=
               [{ Namespaces := [], TopologyKey := "kubernetes.io/hostname" }]
             PreferredDuringSchedulingIgnoredDuringExecution := [] }
    PodAntiAffinity := none }

/-- A pod template with two containers and the prior affinity `sampleAffinity`. -/
def sampleTwoContainerTemplate : PodTemplateSpec :=
  { PodTemplateSpec.zero with
    Spec := { PodTemplateSpec.zero.Spec with
      Containers :=
        [{ Container.zero with
           Name := "old", Command := ["run"], Args := ["--fast"]
           Ports := [{ ContainerPort.zero with Name := "http" },
                     { ContainerPort.zero with Name := "metrics", ContainerPort := ⟨9090, by decide⟩ }] },
         { Container.zero with Name := "sidecar", Image := "proxy:v2" }]
      Affinity := some sampleAffinity } }

/-- The sample resource named `example-app` with pull secret `registry-key`. -/
def samplePullSecretCR : AppsodyApplication :=
  { sampleCR "example-app" ⟨8000, by decide⟩ [] with
    Spec := { (sampleCR "example-app" ⟨8000, by decide⟩ []).Spec with
      PullSecret := "registry-key" } }

/-! ## Auxiliary lemmas -/

/-- Converting an integer of the `int32` range to `int32` does not change it. -/
theorem wrapInt32_of_inRange (v : Int) (h1 : -2147483648 ≤ v) (h2 : v ≤ 2147483647) :
    wrapInt32 v = v := by
  unfold wrapInt32
  omega

/-- The round trip `int32(int(p))` is the identity. -/
theorem toInt32_toInt (p : GoInt32) : toInt32 p.toInt = p := by
  apply Subtype.ext
  exact wrapInt32_of_inRange p.val p.property.1 p.property.2

/-- The service customizer is idempotent. -/
theorem CustomizeService_idem (svc : Service) (cr : AppsodyApplication) :
    CustomizeService (CustomizeService svc cr) cr = CustomizeService svc cr := by
  obtain ⟨om, spec⟩ := svc
  obtain ⟨ports, sel, ip, ty, ext, sess⟩ := spec
  cases ports <;> simp [CustomizeService, List.modifyHead]

/-- The service-account customizer is idempotent. -/
theorem CustomizeServiceAccount_idem (sa : ServiceAccount) (cr : AppsodyApplication) :
    CustomizeServiceAccount (CustomizeServiceAccount sa cr) cr =
      CustomizeServiceAccount sa cr := by
  obtain ⟨om, secrets, pull, auto⟩ := sa
  cases pull <;> simp [CustomizeServiceAccount, List.modifyHead]

/-- The route customizer is idempotent. -/
theorem CustomizeRoute_idem (route : Route) (cr : AppsodyApplication) :
    CustomizeRoute (CustomizeRoute route cr) cr = CustomizeRoute route cr := by
  obtain ⟨om, spec⟩ := route
  obtain ⟨host, path, tgt, alt, port, wild⟩ := spec
  cases port <;> simp [CustomizeRoute]

/-- The autoscaler customizer returns a result exactly when `MaxReplicas` is set. -/
theorem CustomizeHPA_isSome (hpa : HorizontalPodAutoscaler) (cr : AppsodyApplication) :
    (CustomizeHPA hpa cr).isSome = cr.Spec.Autoscaling.MaxReplicas.isSome := by
  unfold CustomizeHPA
  cases cr.Spec.Autoscaling.MaxReplicas with
  | none => simp
  | some m => by_cases hs : cr.Spec.Storage = none <;> simp [hs]

/-- The autoscaler customizer is idempotent on its own output. -/
theorem CustomizeHPA_idem (hpa h1 : HorizontalPodAutoscaler) (cr : AppsodyApplication)
    (h : CustomizeHPA hpa cr = some h1) : CustomizeHPA h1 cr = some h1 := by
  unfold CustomizeHPA at h ⊢
  cases hm : cr.Spec.Autoscaling.MaxReplicas with
  | none => simp [hm] at h
  | some m =>
    by_cases hs : cr.Spec.Storage = none
    · simp [hm, hs] at h ⊢
      subst h
      rfl
    · simp [hm, hs] at h ⊢
      subst h
      rfl

/-- The loop of the affinity compiler appends, to the preferred list it starts
from, one term per architecture, in index order. -/
theorem CustomizeAffinity_foldl (archs : Nat) (l : List String) (k : Nat) (na : NodeAffinity) :
    (l.enumFrom k).foldl (CustomizeAffinity.step archs) na =
      { na with
        PreferredDuringSchedulingIgnoredDuringExecution :=
          na.PreferredDuringSchedulingIgnoredDuringExecution ++
            (l.enumFrom k).map (fun ia => CustomizeAffinity.term archs ia.1 ia.2) } := by
  induction l generalizing k na with
  | nil => simp
  | cons arch rest ih =>
    simp only [List.enumFrom_cons, List.foldl_cons, List.map_cons]
    rw [ih]
    simp [CustomizeAffinity.step]

/-- Closed form of the preferred terms the affinity compiler produces. -/
theorem preferredTerms_CustomizeAffinity (a : Affinity) (cr : AppsodyApplication) :
    preferredTerms (CustomizeAffinity a cr) =
      cr.Spec.Architecture.enum.map
        (fun ia => CustomizeAffinity.term cr.Spec.Architecture.length ia.1 ia.2) := by
  simp [preferredTerms, CustomizeAffinity, List.enum, CustomizeAffinity_foldl]

/-- Closed form of the required selector the affinity compiler produces. -/
theorem requiredSelector_CustomizeAffinity (a : Affinity) (cr : AppsodyApplication) :
    requiredSelector (CustomizeAffinity a cr) =
      some { NodeSelectorTerms := [archTerm cr.Spec.Architecture] } := by
  simp [requiredSelector, CustomizeAffinity, List.enum, CustomizeAffinity_foldl, archTerm,
    NodeSelectorOpIn]

/-- The preferred term at index `i`. -/
theorem preferredTerms_getElem? (a : Affinity) (cr : AppsodyApplication) (i : Nat) :
    (preferredTerms (CustomizeAffinity a cr))[i]? =
      (cr.Spec.Architecture[i]?).map
        (fun arch => CustomizeAffinity.term cr.Spec.Architecture.length i arch) := by
  rw [preferredTerms_CustomizeAffinity]
  simp only [List.getElem?_map, List.enum, List.getElem?_enumFrom]
  cases cr.Spec.Architecture[i]? <;> simp

/-- The weights the affinity compiler produces, before any bound on the length. -/
theorem preferredWeights_CustomizeAffinity (a : Affinity) (cr : AppsodyApplication) :
    preferredWeights (CustomizeAffinity a cr) =
      (List.range cr.Spec.Architecture.length).map
        (fun (i : Nat) => wrapInt32 ((cr.Spec.Architecture.length : Int) - (i : Int))) := by
  apply List.ext_getElem?
  intro i
  simp only [preferredWeights, List.getElem?_map, preferredTerms_getElem?]
  by_cases hi : i < cr.Spec.Architecture.length
  · simp [List.getElem?_range hi, List.getElem?_eq_getElem hi, CustomizeAffinity.term, toInt32]
  · have h1 : cr.Spec.Architecture[i]? = none := List.getElem?_eq_none (by omega)
    have h2 : (List.range cr.Spec.Architecture.length)[i]? = none :=
      List.getElem?_eq_none (by simpa using hi)
    simp [h1, h2]

/-- The weights the affinity compiler produces for a list whose length fits `int32`. -/
theorem preferredWeights_of_le (a : Affinity) (cr : AppsodyApplication)
    (hn : cr.Spec.Architecture.length ≤ 2147483647) :
    preferredWeights (CustomizeAffinity a cr) =
      (List.range cr.Spec.Architecture.length).map
        (fun (i : Nat) => (cr.Spec.Architecture.length : Int) - (i : Int)) := by
  rw [preferredWeights_CustomizeAffinity]
  apply List.map_congr_left
  intro i hi
  have hi2 : i < cr.Spec.Architecture.length := List.mem_range.mp hi
  apply wrapInt32_of_inRange <;> omega

/-- The statements on container 0 are idempotent. -/
theorem container0_idem (cr : AppsodyApplication) (c : Container) :
    CustomizePodSpec.container0 cr (CustomizePodSpec.container0 cr c) =
      CustomizePodSpec.container0 cr c := by
  obtain ⟨name, image, cmd, args, wd, ports, envFrom, env, res, vm, lp, rp, ipp⟩ := c
  cases ports <;> simp [CustomizePodSpec.container0, List.modifyHead]

/-- The container list after the pod-template customizer. -/
theorem CustomizePodSpec_containers (pts : PodTemplateSpec) (cr : AppsodyApplication) :
    (CustomizePodSpec pts cr).Spec.Containers =
      match pts.Spec.Containers with
      | [] => [CustomizePodSpec.container0 cr Container.zero]
      | c :: rest => CustomizePodSpec.container0 cr c :: rest := by
  unfold CustomizePodSpec
  by_cases hsa : cr.Spec.ServiceAccountName = "" <;>
    by_cases harch : cr.Spec.Architecture.length > 0 <;>
    cases hc : pts.Spec.Containers <;>
    simp [hsa, harch, hc, List.modifyHead]

/-- The pod-template customizer is idempotent. -/
theorem CustomizePodSpec_idem (pts : PodTemplateSpec) (cr : AppsodyApplication) :
    CustomizePodSpec (CustomizePodSpec pts cr) cr = CustomizePodSpec pts cr := by
  obtain ⟨om, spec⟩ := pts
  obtain ⟨vols, inits, containers, rp, dp, ns, san, nn, aff⟩ := spec
  by_cases hsa : cr.Spec.ServiceAccountName = "" <;>
    by_cases harch : cr.Spec.Architecture.length > 0 <;>
    cases containers <;>
    simp [CustomizePodSpec, hsa, harch, List.modifyHead, container0_idem]

/-! ## Idempotence -/

/-- C1: the Service, ServiceAccount, Route and HPA customizers are idempotent:
applying one of them with the same custom resource to its own output gives
the output again; for the HPA customizer, whenever `Autoscaling.MaxReplicas`
is set, the first call returns a result and the second call on that result
returns it unchanged. -/
theorem customizers_idempotent (cr : AppsodyApplication) (svc : Service)
    (sa : ServiceAccount) (hpa : HorizontalPodAutoscaler) (route : Route) :
    CustomizeService (CustomizeService svc cr) cr = CustomizeService svc cr ∧
    CustomizeServiceAccount (CustomizeServiceAccount sa cr) cr =
      CustomizeServiceAccount sa cr ∧
    CustomizeRoute (CustomizeRoute route cr) cr = CustomizeRoute route cr ∧
    (∀ m : GoInt32, cr.Spec.Autoscaling.MaxReplicas = some m →
      ∃ h1, CustomizeHPA hpa cr = some h1 ∧ CustomizeHPA h1 cr = some h1) := by
  refine ⟨CustomizeService_idem svc cr, CustomizeServiceAccount_idem sa cr,
    CustomizeRoute_idem route cr, ?_⟩
  intro m hm
  have hsome : (CustomizeHPA hpa cr).isSome = true := by
    rw [CustomizeHPA_isSome, hm]
    rfl
  obtain ⟨h1, hh1⟩ := Option.isSome_iff_exists.mp hsome
  exact ⟨h1, hh1, CustomizeHPA_idem hpa h1 cr hh1⟩

/-- Instance of C1 at zero-valued targets and a resource with `MaxReplicas = 5`. -/
theorem customizers_idempotent_witness :
    (sampleAutoscaledCR "example-app" ⟨5, by decide⟩ none).Spec.Autoscaling.MaxReplicas =
      some ⟨5, by decide⟩ ∧
    ∃ h1, CustomizeHPA HorizontalPodAutoscaler.zero
        (sampleAutoscaledCR "example-app" ⟨5, by decide⟩ none) = some h1 ∧
      CustomizeHPA h1 (sampleAutoscaledCR "example-app" ⟨5, by decide⟩ none) = some h1 :=
  ⟨rfl, (customizers_idempotent (sampleAutoscaledCR "example-app" ⟨5, by decide⟩ none)
    Service.zero ServiceAccount.zero HorizontalPodAutoscaler.zero Route.zero).2.2.2
    ⟨5, by decide⟩ rfl⟩

/-- C2: the pod-template customizer is idempotent, for every custom resource
and every target (any containers, ports and prior affinity); in particular
the preferred affinity terms after the second application are those after
the first. -/
theorem pod_template_idempotent (cr : AppsodyApplication) (pts : PodTemplateSpec) :
    CustomizePodSpec (CustomizePodSpec pts cr) cr = CustomizePodSpec pts cr ∧
    ((CustomizePodSpec (CustomizePodSpec pts cr) cr).Spec.Affinity.map preferredTerms) =
      ((CustomizePodSpec pts cr).Spec.Affinity.map preferredTerms) := by
  have h := CustomizePodSpec_idem pts cr
  exact ⟨h, by rw [h]⟩

/-! ## Labels -/

/-- C3: after each of the Service, PodTemplate, ServiceAccount, Route and HPA
customizers the labels of the target are exactly the map returned by
GetLabels, whatever the prior labels; that map has the two entries
`app.kubernetes.io/name` (bound to `cr.Name`) and `app.kubernetes.io/managed-by`
(bound to `appsody-operator`) and no other key.  The HPA customizer returns a
result exactly when `MaxReplicas` is set, and then with these labels. -/
theorem label_replacement (cr : AppsodyApplication) (svc : Service) (pts : PodTemplateSpec)
    (sa : ServiceAccount) (hpa : HorizontalPodAutoscaler) (route : Route) :
    (CustomizeService svc cr).Labels = some (GetLabels cr) ∧
    (CustomizePodSpec pts cr).Labels = some (GetLabels cr) ∧
    (CustomizeServiceAccount sa cr).Labels = some (GetLabels cr) ∧
    (CustomizeRoute route cr).Labels = some (GetLabels cr) ∧
    (CustomizeHPA hpa cr).map (fun h => h.Labels) =
      cr.Spec.Autoscaling.MaxReplicas.map (fun _ => some (GetLabels cr)) ∧
    GetLabels cr =
      [("app.kubernetes.io/name", cr.Name),
       ("app.kubernetes.io/managed-by", "appsody-operator")] ∧
    (GetLabels cr).keys = ["app.kubernetes.io/name", "app.kubernetes.io/managed-by"] ∧
    (GetLabels cr).keys.Nodup ∧
    (∀ k : String, GoMap.lookup k (GetLabels cr) =
      if k = "app.kubernetes.io/name" then some cr.Name
      else if k = "app.kubernetes.io/managed-by" then some "appsody-operator"
      else none) := by
  refine ⟨?_, ?_, ?_, ?_, ?_, rfl, rfl, ?_, ?_⟩
  · unfold CustomizeService
    cases hp : svc.Spec.Ports <;> simp [hp]
  · unfold CustomizePodSpec
    by_cases hsa : cr.Spec.ServiceAccountName = "" <;>
      by_cases harch : cr.Spec.Architecture.length > 0 <;>
      cases hc : pts.Spec.Containers <;>
      simp [hsa, harch, hc]
  · unfold CustomizeServiceAccount
    cases hp : sa.ImagePullSecrets <;> simp [hp]
  · simp [CustomizeRoute]
  · unfold CustomizeHPA
    cases cr.Spec.Autoscaling.MaxReplicas with
    | none => simp
    | some m => by_cases hs : cr.Spec.Storage = none <;> simp [hs]
  · simp [GoMap.keys, GetLabels]
  · intro k
    by_cases h1 : k = "app.kubernetes.io/name"
    · simp [GetLabels, GoMap.lookup, h1]
    · by_cases h2 : k = "app.kubernetes.io/managed-by"
      · simp [GetLabels, GoMap.lookup, h2]
      · simp [GetLabels, GoMap.lookup, h1, h2, Ne.symm h1, Ne.symm h2]

/-! ## Affinity compilation -/

/-- C4, as amended: for every architecture list of length `n`, the affinity
compiler produces a required selector with the single term
(`In`, `beta.kubernetes.io/arch`, the whole list in order) and exactly `n`
preferred terms in input order, the term at index `i` having the single
requirement (`In`, `beta.kubernetes.io/arch`, `[archs[i]]`) and the weight
`int32(n - i)`, which is `n - i` whenever `n ≤ 2^31 - 1`. -/
theorem affinity_compilation (a : Affinity) (cr : AppsodyApplication) :
    requiredSelector (CustomizeAffinity a cr) =
      some { NodeSelectorTerms := [archTerm cr.Spec.Architecture] } ∧
    (preferredTerms (CustomizeAffinity a cr)).length = cr.Spec.Architecture.length ∧
    ∀ (i : Nat) (arch : String), cr.Spec.Architecture[i]? = some arch →
      ∃ t, (preferredTerms (CustomizeAffinity a cr))[i]? = some t ∧
        t.Preference = archTerm [arch] ∧
        t.Weight.val = wrapInt32 ((cr.Spec.Architecture.length : Int) - (i : Int)) ∧
        (cr.Spec.Architecture.length ≤ 2147483647 →
          t.Weight.val = (cr.Spec.Architecture.length : Int) - (i : Int)) := by
  refine ⟨requiredSelector_CustomizeAffinity a cr, ?_, ?_⟩
  · simp [preferredTerms_CustomizeAffinity, List.enum]
  · intro i arch harch
    have hi : i < cr.Spec.Architecture.length := by
      by_contra hcon
      rw [List.getElem?_eq_none (by omega)] at harch
      exact Option.noConfusion harch
    refine ⟨CustomizeAffinity.term cr.Spec.Architecture.length i arch, ?_, ?_, rfl, ?_⟩
    · rw [preferredTerms_getElem?, harch]
      rfl
    · simp [CustomizeAffinity.term, archTerm, NodeSelectorOpIn]
    · intro hn
      show wrapInt32 _ = _
      apply wrapInt32_of_inRange <;> omega

/-- Instance of C4 at `["amd64", "ppc64le", "s390x"]`: weights `[3, 2, 1]`, required
values the three architectures, first preferred term of weight `3` for `amd64`. -/
theorem affinity_compilation_witness :
    (sampleCR "example-app" ⟨8000, by decide⟩
      ["amd64", "ppc64le", "s390x"]).Spec.Architecture.length ≤ 2147483647 ∧
    preferredWeights (CustomizeAffinity Affinity.zero
      (sampleCR "example-app" ⟨8000, by decide⟩ ["amd64", "ppc64le", "s390x"])) = [3, 2, 1] ∧
    requiredSelector (CustomizeAffinity Affinity.zero
      (sampleCR "example-app" ⟨8000, by decide⟩ ["amd64", "ppc64le", "s390x"])) =
      some { NodeSelectorTerms := [archTerm ["amd64", "ppc64le", "s390x"]] } ∧
    ∃ t, (preferredTerms (CustomizeAffinity Affinity.zero
        (sampleCR "example-app" ⟨8000, by decide⟩ ["amd64", "ppc64le", "s390x"])))[0]? = some t ∧
      t.Preference = archTerm ["amd64"] ∧ t.Weight.val = 3 := by
  obtain ⟨hreq, _, hterm⟩ := affinity_compilation Affinity.zero
    (sampleCR "example-app" ⟨8000, by decide⟩ ["amd64", "ppc64le", "s390x"])
  obtain ⟨t, ht, hpref, _, hw⟩ := hterm 0 "amd64" rfl
  exact ⟨by decide, by decide, hreq, t, ht, hpref, hw (by decide)⟩

/-- C4 as stated fails for a list of `2^31` architectures: the weight of the
term at index `0` is `int32(2^31 - 0) = -2^31`, not `n - 0 = 2^31`. -/
theorem affinity_compilation_counterexample :
    ∃ t, (preferredTerms (CustomizeAffinity Affinity.zero
        (sampleCR "example-app" ⟨8000, by decide⟩
          (List.replicate 2147483648 "amd64"))))[0]? = some t ∧
      t.Weight.val = -2147483648 ∧
      ((sampleCR "example-app" ⟨8000, by decide⟩
          (List.replicate 2147483648 "amd64")).Spec.Architecture.length : Int) - ((0 : Nat) : Int)
        = 2147483648 := by
  have hlen : (sampleCR "example-app" ⟨8000, by decide⟩
      (List.replicate 2147483648 "amd64")).Spec.Architecture.length = 2147483648 :=
    List.length_replicate 2147483648 "amd64"
  have h0 : (sampleCR "example-app" ⟨8000, by decide⟩
      (List.replicate 2147483648 "amd64")).Spec.Architecture[0]? = some "amd64" := by
    show (List.replicate 2147483648 "amd64")[0]? = some "amd64"
    rw [List.getElem?_replicate]
    rfl
  refine ⟨CustomizeAffinity.term 2147483648 0 "amd64", ?_, ?_, ?_⟩
  · rw [preferredTerms_getElem?, h0, hlen]
    rfl
  · show wrapInt32 (2147483648 - 0) = -2147483648
    decide
  · rw [hlen]
    rfl

/-- C5: for a non-empty architecture list of length `n ≤ 2^31 - 1`, the weights
of the preferred terms, in output order, are strictly decreasing (each weight
is greater than every later one), there are `n` of them, the first is `n`,
the last is `1`, each lies between `1` and `n`, and no weight occurs twice. -/
theorem affinity_weights_strictly_descending (a : Affinity) (cr : AppsodyApplication)
    (hpos : 0 < cr.Spec.Architecture.length)
    (hn : cr.Spec.Architecture.length ≤ 2147483647) :
    (preferredWeights (CustomizeAffinity a cr)).Pairwise (fun w w2 => w2 < w) ∧
    (preferredWeights (CustomizeAffinity a cr)).length = cr.Spec.Architecture.length ∧
    (preferredWeights (CustomizeAffinity a cr)).head? =
      some (cr.Spec.Architecture.length : Int) ∧
    (preferredWeights (CustomizeAffinity a cr)).getLast? = some 1 ∧
    (∀ w ∈ preferredWeights (CustomizeAffinity a cr),
      1 ≤ w ∧ w ≤ (cr.Spec.Architecture.length : Int)) ∧
    (preferredWeights (CustomizeAffinity a cr)).Nodup := by
  rw [preferredWeights_of_le a cr hn]
  generalize cr.Spec.Architecture.length = n at hpos hn
  have hpw : ((List.range n).map (fun (i : Nat) => (n : Int) - (i : Int))).Pairwise
      (fun w w2 => w2 < w) := by
    rw [List.pairwise_map]
    exact (List.pairwise_lt_range n).imp (fun {i j} hij => by omega)
  refine ⟨hpw, by simp, ?_, ?_, ?_, ?_⟩
  · rw [List.head?_eq_getElem?, List.getElem?_map, List.getElem?_range hpos]
    simp
  · rw [List.getLast?_eq_getElem?, List.getElem?_map, List.length_map, List.length_range,
      List.getElem?_range (by omega)]
    simp only [Option.map_some']
    congr 1
    omega
  · intro w hw
    obtain ⟨i, hi, rfl⟩ := List.mem_map.mp hw
    have hi2 : i < n := List.mem_range.mp hi
    omega
  · exact hpw.imp (fun {x y} hxy => by omega)

/-- Instance of C5 at `["amd64", "amd64"]`: the same architecture listed twice
still gets the two distinct weights `2` and `1`. -/
theorem affinity_weights_strictly_descending_witness :
    0 < (sampleCR "example-app" ⟨8000, by decide⟩
      ["amd64", "amd64"]).Spec.Architecture.length ∧
    (sampleCR "example-app" ⟨8000, by decide⟩
      ["amd64", "amd64"]).Spec.Architecture.length ≤ 2147483647 ∧
    preferredWeights (CustomizeAffinity Affinity.zero
      (sampleCR "example-app" ⟨8000, by decide⟩ ["amd64", "amd64"])) = [2, 1] ∧
    (preferredWeights (CustomizeAffinity Affinity.zero
      (sampleCR "example-app" ⟨8000, by decide⟩ ["amd64", "amd64"]))).Nodup :=
  ⟨by decide, by decide, by decide,
   (affinity_weights_strictly_descending Affinity.zero
      (sampleCR "example-app" ⟨8000, by decide⟩ ["amd64", "amd64"])
      (by decide) (by decide)).2.2.2.2.2⟩

/-! ## Autoscaler scale target -/

/-- C6: when `MaxReplicas` is set, CustomizeHPA returns a result whose scale-target
reference has `Name = cr.Name`, `APIVersion = "apps/v1"`, and `Kind = "StatefulSet"`
if and only if `cr.Spec.Storage` is present, `Kind = "Deployment"` if and only if
it is absent, whatever the prior reference; no other kind is produced. -/
theorem scale_target_selection (cr : AppsodyApplication) (hpa : HorizontalPodAutoscaler)
    (m : GoInt32) (hmax : cr.Spec.Autoscaling.MaxReplicas = some m) :
    ∃ h1, CustomizeHPA hpa cr = some h1 ∧
      h1.Spec.ScaleTargetRef.Name = cr.Name ∧
      h1.Spec.ScaleTargetRef.APIVersion = "apps/v1" ∧
      (h1.Spec.ScaleTargetRef.Kind = "StatefulSet" ↔ cr.Spec.Storage ≠ none) ∧
      (h1.Spec.ScaleTargetRef.Kind = "Deployment" ↔ cr.Spec.Storage = none) ∧
      (h1.Spec.ScaleTargetRef.Kind = "StatefulSet" ∨
        h1.Spec.ScaleTargetRef.Kind = "Deployment") := by
  unfold CustomizeHPA
  by_cases hs : cr.Spec.Storage = none
  · simp [hmax, hs]
  · simp [hmax, hs]

/-- Instance of C6 at a resource with storage and a target that pointed at a
`Deployment` called `old`: the kind becomes `StatefulSet`. -/
theorem scale_target_selection_witness :
    (sampleAutoscaledCR "example-app" ⟨5, by decide⟩
      (some { Size := "1Gi", VolumeClaimTemplate := none })).Spec.Autoscaling.MaxReplicas =
      some ⟨5, by decide⟩ ∧
    ∃ h1, CustomizeHPA sampleHPA
        (sampleAutoscaledCR "example-app" ⟨5, by decide⟩
          (some { Size := "1Gi", VolumeClaimTemplate := none })) = some h1 ∧
      h1.Spec.ScaleTargetRef.Name = "example-app" ∧
      h1.Spec.ScaleTargetRef.APIVersion = "apps/v1" ∧
      h1.Spec.ScaleTargetRef.Kind = "StatefulSet" := by
  obtain ⟨h1, hh, hname, hapi, hkind, _, _⟩ :=
    scale_target_selection
      (sampleAutoscaledCR "example-app" ⟨5, by decide⟩
        (some { Size := "1Gi", VolumeClaimTemplate := none }))
      sampleHPA ⟨5, by decide⟩ rfl
  exact ⟨rfl, h1, hh, hname, hapi, hkind.mpr (by simp [sampleAutoscaledCR])⟩

/-! ## Service -/

/-- C7: after CustomizeService the port list has length `max 1 |ps|`; entry `0` is
the prior entry `0` (the zero-value port when `ps` is empty) with `Port` set to
`cr.Spec.Service.Port` and `TargetPort` set to the integer value
`cr.Spec.Service.Port`, its other fields as before; every entry at an index
`j + 1` (that is, at any index `≥ 1`) is the entry of `ps` at that index.  With zero ports and port `8000` the
result is exactly one port with `Port = TargetPort = 8000`. -/
theorem service_port_management (cr : AppsodyApplication) (svc : Service) :
    (CustomizeService svc cr).Spec.Ports.length = max 1 svc.Spec.Ports.length ∧
    (CustomizeService svc cr).Spec.Ports[0]? =
      some { svc.Spec.Ports.headD ServicePort.zero with
             Port := cr.Spec.Service.Port
             TargetPort := { Type_ := IntOrStringType.Int, IntVal := cr.Spec.Service.Port,
                             StrVal := "" } } ∧
    (∀ j : Nat, (CustomizeService svc cr).Spec.Ports[j + 1]? = svc.Spec.Ports[j + 1]?) ∧
    (CustomizeService Service.zero (sampleCR "example-app" ⟨8000, by decide⟩ [])).Spec.Ports =
      [{ Name := "", Protocol := "", Port := ⟨8000, by decide⟩,
         TargetPort := { Type_ := IntOrStringType.Int, IntVal := ⟨8000, by decide⟩,
                         StrVal := "" },
         NodePort := GoInt32.zero }] := by
  refine ⟨?_, ?_, ?_, by decide⟩
  · unfold CustomizeService
    cases hp : svc.Spec.Ports <;> simp [hp, List.modifyHead]
  · unfold CustomizeService
    cases hp : svc.Spec.Ports <;> simp [hp, List.modifyHead, FromInt, toInt32_toInt]
  · intro j
    unfold CustomizeService
    cases hp : svc.Spec.Ports <;> simp [hp, List.modifyHead]

/-- C8: after CustomizeService the selector is exactly the one-entry map
`{"app.kubernetes.io/name": cr.Name}`, whatever the prior selector (reading it
at a key gives `cr.Name` for `app.kubernetes.io/name` and nothing for any other
key), and `Spec.Type` is `cr.Spec.Service.Type`. -/
theorem service_selector_and_type (cr : AppsodyApplication) (svc : Service) :
    (CustomizeService svc cr).Spec.Selector = some [("app.kubernetes.io/name", cr.Name)] ∧
    (∀ k : String, (CustomizeService svc cr).Spec.Selector.bind (GoMap.lookup k) =
      if k = "app.kubernetes.io/name" then some cr.Name else none) ∧
    (CustomizeService svc cr).Spec.Type_ = cr.Spec.Service.Type_ := by
  have hsel : (CustomizeService svc cr).Spec.Selector =
      some [("app.kubernetes.io/name", cr.Name)] := by
    unfold CustomizeService
    cases hp : svc.Spec.Ports <;> simp [hp]
  refine ⟨hsel, ?_, ?_⟩
  · intro k
    rw [hsel]
    by_cases h1 : k = "app.kubernetes.io/name"
    · simp [GoMap.lookup, h1]
    · simp [GoMap.lookup, h1, Ne.symm h1]
  · unfold CustomizeService
    cases hp : svc.Spec.Ports <;> simp [hp]

/-! ## Pod template -/

/-- C9: after CustomizePodSpec the pod's `ServiceAccountName` is
`cr.Spec.ServiceAccountName` when that string is non-empty and `cr.Name` when it
is empty, whatever the target's prior `ServiceAccountName`. -/
theorem service_account_resolution (cr : AppsodyApplication) (pts : PodTemplateSpec) :
    (cr.Spec.ServiceAccountName ≠ "" →
      (CustomizePodSpec pts cr).Spec.ServiceAccountName = cr.Spec.ServiceAccountName) ∧
    (cr.Spec.ServiceAccountName = "" →
      (CustomizePodSpec pts cr).Spec.ServiceAccountName = cr.Name) := by
  constructor <;> intro hsa <;> unfold CustomizePodSpec <;>
    by_cases harch : cr.Spec.Architecture.length > 0 <;>
    cases hc : pts.Spec.Containers <;>
    simp [hsa, harch, hc]

/-- Instance of C9: `ServiceAccountName = ""` and `Name = "example-app"` give
`"example-app"`, on a target whose prior service-account name was `prior`. -/
theorem service_account_resolution_witness :
    (sampleCR "example-app" ⟨8000, by decide⟩ []).Spec.ServiceAccountName = "" ∧
    samplePodTemplate.Spec.ServiceAccountName = "prior" ∧
    (CustomizePodSpec samplePodTemplate
      (sampleCR "example-app" ⟨8000, by decide⟩ [])).Spec.ServiceAccountName = "example-app" :=
  ⟨rfl, rfl,
   (service_account_resolution (sampleCR "example-app" ⟨8000, by decide⟩ [])
      samplePodTemplate).2 rfl⟩

/-- C10: on a target with zero or one container, after CustomizePodSpec exactly
one container exists and it is named `app`; its port list has length
`max 1 p`, where `p` is the prior number of ports of container 0 (so a port is
appended only when there was none), and its port 0 has container port
`cr.Spec.Service.Port`; `RestartPolicy` is `Always` and `DNSPolicy` is
`ClusterFirst`, whatever they were. -/
theorem pod_template_container_shape (cr : AppsodyApplication) (pts : PodTemplateSpec)
    (hc : pts.Spec.Containers.length ≤ 1) :
    (∃ c, (CustomizePodSpec pts cr).Spec.Containers = [c] ∧
      c.Name = "app" ∧
      1 ≤ c.Ports.length ∧
      c.Ports.length = max 1 (pts.Spec.Containers.headD Container.zero).Ports.length ∧
      c.Ports[0]?.map (fun p => p.ContainerPort) = some cr.Spec.Service.Port) ∧
    (CustomizePodSpec pts cr).Spec.RestartPolicy = "Always" ∧
    (CustomizePodSpec pts cr).Spec.DNSPolicy = "ClusterFirst" := by
  refine ⟨?_, ?_, ?_⟩
  · rw [CustomizePodSpec_containers]
    cases hcs : pts.Spec.Containers with
    | nil =>
      refine ⟨_, rfl, ?_⟩
      simp [CustomizePodSpec.container0, Container.zero, List.modifyHead]
    | cons c rest =>
      rw [hcs] at hc
      have hrest : rest = [] := List.eq_nil_of_length_eq_zero (by simpa using hc)
      subst hrest
      refine ⟨_, rfl, ?_⟩
      cases hp : c.Ports <;> simp [CustomizePodSpec.container0, hp, List.modifyHead]
  · unfold CustomizePodSpec
    by_cases hsa : cr.Spec.ServiceAccountName = "" <;>
      by_cases harch : cr.Spec.Architecture.length > 0 <;>
      cases hcs : pts.Spec.Containers <;>
      simp [hsa, harch, hcs, RestartPolicyAlways]
  · unfold CustomizePodSpec
    by_cases hsa : cr.Spec.ServiceAccountName = "" <;>
      by_cases harch : cr.Spec.Architecture.length > 0 <;>
      cases hcs : pts.Spec.Containers <;>
      simp [hsa, harch, hcs, DNSClusterFirst]

/-- Instance of C10 at a target with one container `old` without ports and
policies `Never` and `Default`. -/
theorem pod_template_container_shape_witness :
    samplePodTemplate.Spec.Containers.length ≤ 1 ∧
    (∃ c, (CustomizePodSpec samplePodTemplate
        (sampleCR "example-app" ⟨8000, by decide⟩ [])).Spec.Containers = [c] ∧
      c.Name = "app" ∧
      1 ≤ c.Ports.length ∧
      c.Ports.length = max 1 (samplePodTemplate.Spec.Containers.headD Container.zero).Ports.length ∧
      c.Ports[0]?.map (fun p => p.ContainerPort) = some ⟨8000, by decide⟩) ∧
    (CustomizePodSpec samplePodTemplate
      (sampleCR "example-app" ⟨8000, by decide⟩ [])).Spec.RestartPolicy = "Always" ∧
    (CustomizePodSpec samplePodTemplate
      (sampleCR "example-app" ⟨8000, by decide⟩ [])).Spec.DNSPolicy = "ClusterFirst" :=
  ⟨by decide,
   pod_template_container_shape (sampleCR "example-app" ⟨8000, by decide⟩ [])
     samplePodTemplate (by decide)⟩

/-! ## Service account -/

/-- C11, as amended: after CustomizeServiceAccount on a target with `k` prior
image-pull secrets the list has `max 1 k` entries, entry `0` is named
`cr.Spec.PullSecret`, and every entry at an index `≥ 1` is the prior entry at
that index; so the list is exactly the one entry named `cr.Spec.PullSecret`
when the target had zero or one entry. -/
theorem service_account_pull_secret (cr : AppsodyApplication) (sa : ServiceAccount) :
    (CustomizeServiceAccount sa cr).ImagePullSecrets.length =
      max 1 sa.ImagePullSecrets.length ∧
    (CustomizeServiceAccount sa cr).ImagePullSecrets[0]? =
      some { Name := cr.Spec.PullSecret } ∧
    (∀ j : Nat, (CustomizeServiceAccount sa cr).ImagePullSecrets[j + 1]? =
      sa.ImagePullSecrets[j + 1]?) ∧
    (sa.ImagePullSecrets.length ≤ 1 →
      (CustomizeServiceAccount sa cr).ImagePullSecrets = [{ Name := cr.Spec.PullSecret }]) := by
  unfold CustomizeServiceAccount
  cases hp : sa.ImagePullSecrets with
  | nil => simp [hp]
  | cons r rest =>
    refine ⟨by simp [hp, List.modifyHead], by simp [hp, List.modifyHead],
      fun j => by simp [hp, List.modifyHead], ?_⟩
    intro hlen
    have hrest : rest = [] := List.eq_nil_of_length_eq_zero (by simpa using hlen)
    simp [hp, hrest, List.modifyHead]

/-- Instance of C11 at a target with no prior pull secret. -/
theorem service_account_pull_secret_witness :
    ServiceAccount.zero.ImagePullSecrets.length ≤ 1 ∧
    (CustomizeServiceAccount ServiceAccount.zero samplePullSecretCR).ImagePullSecrets =
      [{ Name := "registry-key" }] :=
  ⟨by decide,
   (service_account_pull_secret samplePullSecretCR ServiceAccount.zero).2.2.2 (by decide)⟩

/-- C11 as stated fails on a target with two prior pull secrets: the list
still has two entries afterwards, the second one untouched. -/
theorem service_account_pull_secret_counterexample :
    sampleServiceAccount.ImagePullSecrets = [{ Name := "first" }, { Name := "second" }] ∧
    (CustomizeServiceAccount sampleServiceAccount samplePullSecretCR).ImagePullSecrets =
      [{ Name := "registry-key" }, { Name := "second" }] ∧
    (CustomizeServiceAccount sampleServiceAccount samplePullSecretCR).ImagePullSecrets.length
      ≠ 1 := by
  decide

/-! ## Persistence -/

/-- A target that already has a volume-claim template is returned as it is. -/
theorem CustomizePersistence_of_ne_nil (ParseQuantity : String → Option Quantity)
    (statefulSet : StatefulSet) (cr : AppsodyApplication)
    (h : statefulSet.Spec.VolumeClaimTemplates ≠ []) :
    CustomizePersistence ParseQuantity statefulSet cr = Outcome.returned statefulSet := by
  unfold CustomizePersistence
  simp [h]

/-- With no template on the target and an explicit template in the resource,
that template becomes the only one. -/
theorem CustomizePersistence_explicit (ParseQuantity : String → Option Quantity)
    (statefulSet : StatefulSet) (cr : AppsodyApplication) (storage : AppsodyApplicationStorage)
    (pvc : PersistentVolumeClaim)
    (hvct : statefulSet.Spec.VolumeClaimTemplates = []) (hst : cr.Spec.Storage = some storage)
    (hpvc : storage.VolumeClaimTemplate = some pvc) :
    CustomizePersistence ParseQuantity statefulSet cr =
      Outcome.returned
        { statefulSet with
          Spec := { statefulSet.Spec with VolumeClaimTemplates := [pvc] } } := by
  unfold CustomizePersistence
  simp [hvct, hst, hpvc]

/-- With no template on the target, no explicit template and a size the parser
accepts, the synthesized claim becomes the only template. -/
theorem CustomizePersistence_synthesized (ParseQuantity : String → Option Quantity)
    (statefulSet : StatefulSet) (cr : AppsodyApplication) (storage : AppsodyApplicationStorage)
    (quantity : Quantity)
    (hvct : statefulSet.Spec.VolumeClaimTemplates = []) (hst : cr.Spec.Storage = some storage)
    (hpvc : storage.VolumeClaimTemplate = none)
    (hq : ParseQuantity storage.Size = some quantity) :
    CustomizePersistence ParseQuantity statefulSet cr =
      Outcome.returned
        { statefulSet with
          Spec := { statefulSet.Spec with
            VolumeClaimTemplates :=
              [{ Name := "pvc", Namespace := cr.Namespace, Labels := some (GetLabels cr),
                 Annotations := none,
                 Spec := { Resources := { Limits := none,
                                          Requests := some [("storage", quantity)] },
                           AccessModes := ["ReadWriteOnce"],
                           VolumeName := "", StorageClassName := none } }] } } := by
  unfold CustomizePersistence
  simp [hvct, hst, hpvc, hq, MustParse, ResourceStorage, ReadWriteOnce]

/-- With no template on the target, no explicit template and a size the parser
rejects, the call panics and the target is as before. -/
theorem CustomizePersistence_malformed (ParseQuantity : String → Option Quantity)
    (statefulSet : StatefulSet) (cr : AppsodyApplication) (storage : AppsodyApplicationStorage)
    (hvct : statefulSet.Spec.VolumeClaimTemplates = []) (hst : cr.Spec.Storage = some storage)
    (hpvc : storage.VolumeClaimTemplate = none)
    (hq : ParseQuantity storage.Size = none) :
    CustomizePersistence ParseQuantity statefulSet cr =
      Outcome.panicked (Panic.cannotParse storage.Size) statefulSet := by
  unfold CustomizePersistence
  simp [hvct, hst, hpvc, hq, MustParse]

/-- C12, as amended: on a target that already has a volume-claim template
CustomizePersistence returns and leaves the target unchanged, for every
resource (any size string, any explicit template).  Consequently, on a target
with zero templates and a first resource with storage, a well-formed size and
no explicit template, the first call returns a target with exactly one
template, whose storage request is the quantity parsed from the first size,
and a second call with any other resource returns that target unchanged. -/
theorem persistence_single_claim_guard (ParseQuantity : String → Option Quantity)
    (statefulSet : StatefulSet) (cr1 cr2 : AppsodyApplication) :
    (statefulSet.Spec.VolumeClaimTemplates ≠ [] →
      CustomizePersistence ParseQuantity statefulSet cr1 = Outcome.returned statefulSet) ∧
    (∀ (storage1 : AppsodyApplicationStorage) (q1 : Quantity),
      statefulSet.Spec.VolumeClaimTemplates = [] →
      cr1.Spec.Storage = some storage1 →
      storage1.VolumeClaimTemplate = none →
      ParseQuantity storage1.Size = some q1 →
      ∃ s1 pvc,
        CustomizePersistence ParseQuantity statefulSet cr1 = Outcome.returned s1 ∧
        CustomizePersistence ParseQuantity s1 cr2 = Outcome.returned s1 ∧
        s1.Spec.VolumeClaimTemplates = [pvc] ∧
        storageRequest pvc = some q1) := by
  refine ⟨CustomizePersistence_of_ne_nil ParseQuantity statefulSet cr1, ?_⟩
  intro storage1 q1 hvct hst hpvc hq
  refine ⟨_, _, CustomizePersistence_synthesized ParseQuantity statefulSet cr1 storage1 q1
    hvct hst hpvc hq, ?_, rfl, ?_⟩
  · exact CustomizePersistence_of_ne_nil ParseQuantity _ cr2 (by simp)
  · simp [storageRequest, ResourceList.lookup, ResourceStorage]

/-- Instance of C12: sizes `1Gi` then `2Gi` on an empty stateful set leave one
template, which requests the quantity of `1Gi`. -/
theorem persistence_single_claim_guard_witness :
    StatefulSet.zero.Spec.VolumeClaimTemplates = [] ∧
    sampleParseQuantity "1Gi" =
      some { Value := 1073741824, Scale := 0, Format := "BinarySI" } ∧
    ∃ s1 pvc,
      CustomizePersistence sampleParseQuantity StatefulSet.zero
        (sampleStorageCR { Size := "1Gi", VolumeClaimTemplate := none }) =
        Outcome.returned s1 ∧
      CustomizePersistence sampleParseQuantity s1
        (sampleStorageCR { Size := "2Gi", VolumeClaimTemplate := none }) =
        Outcome.returned s1 ∧
      s1.Spec.VolumeClaimTemplates = [pvc] ∧
      storageRequest pvc = some { Value := 1073741824, Scale := 0, Format := "BinarySI" } :=
  ⟨rfl, by decide,
   (persistence_single_claim_guard sampleParseQuantity StatefulSet.zero
      (sampleStorageCR { Size := "1Gi", VolumeClaimTemplate := none })
      (sampleStorageCR { Size := "2Gi", VolumeClaimTemplate := none })).2
      { Size := "1Gi", VolumeClaimTemplate := none }
      { Value := 1073741824, Scale := 0, Format := "BinarySI" } rfl rfl rfl (by decide)⟩

/-- C12 as stated fails when the first resource supplies an explicit template:
with sizes `1Gi` then `2Gi`, both well formed and different, the one template
left is the explicit one, whose storage request is `5Gi`, not the first size. -/
theorem persistence_single_claim_guard_counterexample :
    sampleParseQuantity "1Gi" =
      some { Value := 1073741824, Scale := 0, Format := "BinarySI" } ∧
    sampleParseQuantity "2Gi" =
      some { Value := 2147483648, Scale := 0, Format := "BinarySI" } ∧
    CustomizePersistence sampleParseQuantity StatefulSet.zero
      (sampleStorageCR { Size := "1Gi", VolumeClaimTemplate := some sampleClaim }) =
      Outcome.returned
        { StatefulSet.zero with
          Spec := { StatefulSet.zero.Spec with VolumeClaimTemplates := [sampleClaim] } } ∧
    CustomizePersistence sampleParseQuantity
      { StatefulSet.zero with
        Spec := { StatefulSet.zero.Spec with VolumeClaimTemplates := [sampleClaim] } }
      (sampleStorageCR { Size := "2Gi", VolumeClaimTemplate := none }) =
      Outcome.returned
        { StatefulSet.zero with
          Spec := { StatefulSet.zero.Spec with VolumeClaimTemplates := [sampleClaim] } } ∧
    storageRequest sampleClaim =
      some { Value := 5368709120, Scale := 0, Format := "BinarySI" } ∧
    storageRequest sampleClaim ≠ sampleParseQuantity "1Gi" := by
  decide

/-- C13: for a resource with storage, when the target has no volume-claim
template, no explicit template is supplied and the size is not a well-formed
quantity, CustomizePersistence ends with the parse error of that size instead
of a result and leaves the target as it was (no template added); it fails in
exactly this case: it returns whenever the size is well formed, an explicit
template is supplied, or a template already exists. -/
theorem persistence_malformed_size (ParseQuantity : String → Option Quantity)
    (statefulSet : StatefulSet) (cr : AppsodyApplication) (storage : AppsodyApplicationStorage)
    (hst : cr.Spec.Storage = some storage) :
    (statefulSet.Spec.VolumeClaimTemplates = [] →
      storage.VolumeClaimTemplate = none →
      ParseQuantity storage.Size = none →
      CustomizePersistence ParseQuantity statefulSet cr =
        Outcome.panicked (Panic.cannotParse storage.Size) statefulSet) ∧
    ((CustomizePersistence ParseQuantity statefulSet cr).succeeded = true ↔
      (ParseQuantity storage.Size ≠ none ∨ storage.VolumeClaimTemplate ≠ none ∨
        statefulSet.Spec.VolumeClaimTemplates ≠ [])) ∧
    ((CustomizePersistence ParseQuantity statefulSet cr).succeeded = false →
      (CustomizePersistence ParseQuantity statefulSet cr).target = statefulSet) := by
  refine ⟨fun hvct hpvc hq =>
    CustomizePersistence_malformed ParseQuantity statefulSet cr storage hvct hst hpvc hq, ?_, ?_⟩
  · by_cases hvct : statefulSet.Spec.VolumeClaimTemplates = []
    · cases hpvc : storage.VolumeClaimTemplate with
      | some pvc =>
        rw [CustomizePersistence_explicit ParseQuantity statefulSet cr storage pvc hvct hst hpvc]
        simp [Outcome.succeeded]
      | none =>
        cases hq : ParseQuantity storage.Size with
        | some q =>
          rw [CustomizePersistence_synthesized ParseQuantity statefulSet cr storage q
            hvct hst hpvc hq]
          simp [Outcome.succeeded]
        | none =>
          rw [CustomizePersistence_malformed ParseQuantity statefulSet cr storage
            hvct hst hpvc hq]
          simp [Outcome.succeeded, hvct]
    · rw [CustomizePersistence_of_ne_nil ParseQuantity statefulSet cr hvct]
      simp [Outcome.succeeded, hvct]
  · intro hfail
    by_cases hvct : statefulSet.Spec.VolumeClaimTemplates = []
    · cases hpvc : storage.VolumeClaimTemplate with
      | some pvc =>
        rw [CustomizePersistence_explicit ParseQuantity statefulSet cr storage pvc
          hvct hst hpvc] at hfail
        simp [Outcome.succeeded] at hfail
      | none =>
        cases hq : ParseQuantity storage.Size with
        | some q =>
          rw [CustomizePersistence_synthesized ParseQuantity statefulSet cr storage q
            hvct hst hpvc hq] at hfail
          simp [Outcome.succeeded] at hfail
        | none =>
          rw [CustomizePersistence_malformed ParseQuantity statefulSet cr storage
            hvct hst hpvc hq]
          rfl
    · rw [CustomizePersistence_of_ne_nil ParseQuantity statefulSet cr hvct]
      rfl

/-- Instance of C13 at the size `not-a-quantity` and a stateful set without
templates: the call ends with the parse error and the template list is still
empty. -/
theorem persistence_malformed_size_witness :
    (sampleStorageCR { Size := "not-a-quantity", VolumeClaimTemplate := none }).Spec.Storage =
      some { Size := "not-a-quantity", VolumeClaimTemplate := none } ∧
    sampleParseQuantity "not-a-quantity" = none ∧
    CustomizePersistence sampleParseQuantity sampleStatefulSet
      (sampleStorageCR { Size := "not-a-quantity", VolumeClaimTemplate := none }) =
      Outcome.panicked (Panic.cannotParse "not-a-quantity") sampleStatefulSet ∧
    sampleStatefulSet.Spec.VolumeClaimTemplates = [] :=
  ⟨rfl, by decide,
   (persistence_malformed_size sampleParseQuantity sampleStatefulSet
      (sampleStorageCR { Size := "not-a-quantity", VolumeClaimTemplate := none })
      { Size := "not-a-quantity", VolumeClaimTemplate := none } rfl).1 rfl rfl (by decide),
   rfl⟩

/-- C14: on a target with zero volume-claim templates and a resource with
storage, a call that returns leaves exactly one template.  With an explicit
template the call returns and that entry is the explicit template verbatim,
whatever the size string and the parser; without one and with a well-formed
size the call returns and the entry is named `pvc`, in namespace `cr.Namespace`,
labelled with the derived labels, with the single resource request
`storage = ` the parsed quantity and access modes `[ReadWriteOnce]`. -/
theorem persistence_claim_construction (ParseQuantity : String → Option Quantity)
    (statefulSet : StatefulSet) (cr : AppsodyApplication) (storage : AppsodyApplicationStorage)
    (hvct : statefulSet.Spec.VolumeClaimTemplates = [])
    (hst : cr.Spec.Storage = some storage) :
    (∀ s1, CustomizePersistence ParseQuantity statefulSet cr = Outcome.returned s1 →
      s1.Spec.VolumeClaimTemplates.length = 1) ∧
    (∀ explicit, storage.VolumeClaimTemplate = some explicit →
      ∃ s1, CustomizePersistence ParseQuantity statefulSet cr = Outcome.returned s1 ∧
        s1.Spec.VolumeClaimTemplates = [explicit]) ∧
    (∀ quantity, storage.VolumeClaimTemplate = none →
      ParseQuantity storage.Size = some quantity →
      ∃ s1 pvc, CustomizePersistence ParseQuantity statefulSet cr = Outcome.returned s1 ∧
        s1.Spec.VolumeClaimTemplates = [pvc] ∧
        pvc.Name = "pvc" ∧
        pvc.Namespace = cr.Namespace ∧
        pvc.Labels = some (GetLabels cr) ∧
        pvc.Spec.Resources.Requests = some [("storage", quantity)] ∧
        pvc.Spec.AccessModes = ["ReadWriteOnce"]) := by
  refine ⟨?_, ?_, ?_⟩
  · intro s1 hs1
    cases hpvc : storage.VolumeClaimTemplate with
    | some pvc =>
      rw [CustomizePersistence_explicit ParseQuantity statefulSet cr storage pvc
        hvct hst hpvc] at hs1
      cases hs1
      rfl
    | none =>
      cases hq : ParseQuantity storage.Size with
      | some q =>
        rw [CustomizePersistence_synthesized ParseQuantity statefulSet cr storage q
          hvct hst hpvc hq] at hs1
        cases hs1
        rfl
      | none =>
        rw [CustomizePersistence_malformed ParseQuantity statefulSet cr storage
          hvct hst hpvc hq] at hs1
        cases hs1
  · intro explicit hpvc
    exact ⟨_, CustomizePersistence_explicit ParseQuantity statefulSet cr storage explicit
      hvct hst hpvc, rfl⟩
  · intro quantity hpvc hq
    exact ⟨_, _, CustomizePersistence_synthesized ParseQuantity statefulSet cr storage quantity
      hvct hst hpvc hq, rfl, rfl, rfl, rfl, rfl, rfl⟩

/-- Instance of C14: an explicit template is used verbatim although the size
string `not-a-quantity` is malformed. -/
theorem persistence_claim_construction_witness :
    sampleStatefulSet.Spec.VolumeClaimTemplates = [] ∧
    sampleParseQuantity "not-a-quantity" = none ∧
    ∃ s1, CustomizePersistence sampleParseQuantity sampleStatefulSet
        (sampleStorageCR
          { Size := "not-a-quantity", VolumeClaimTemplate := some sampleClaim }) =
        Outcome.returned s1 ∧
      s1.Spec.VolumeClaimTemplates = [sampleClaim] :=
  ⟨rfl, by decide,
   (persistence_claim_construction sampleParseQuantity sampleStatefulSet
      (sampleStorageCR { Size := "not-a-quantity", VolumeClaimTemplate := some sampleClaim })
      { Size := "not-a-quantity", VolumeClaimTemplate := some sampleClaim } rfl rfl).2.1
      sampleClaim rfl⟩

/-- C19: when CustomizePersistence returns, the stateful set is the prior one
with at most its volume-claim template list changed: its object metadata
(labels included, present or absent), replicas, pod template and service name
are as before. -/
theorem persistence_frame (ParseQuantity : String → Option Quantity)
    (statefulSet s1 : StatefulSet) (cr : AppsodyApplication)
    (h : CustomizePersistence ParseQuantity statefulSet cr = Outcome.returned s1) :
    s1 = { statefulSet with
           Spec := { statefulSet.Spec with
             VolumeClaimTemplates := s1.Spec.VolumeClaimTemplates } } ∧
    s1.toObjectMeta = statefulSet.toObjectMeta ∧
    s1.Labels = statefulSet.Labels ∧
    s1.Spec.Replicas = statefulSet.Spec.Replicas ∧
    s1.Spec.Template = statefulSet.Spec.Template ∧
    s1.Spec.ServiceName = statefulSet.Spec.ServiceName := by
  have key : s1 = { statefulSet with
      Spec := { statefulSet.Spec with
        VolumeClaimTemplates := s1.Spec.VolumeClaimTemplates } } := by
    unfold CustomizePersistence at h
    by_cases hvct : statefulSet.Spec.VolumeClaimTemplates = []
    · cases hst : cr.Spec.Storage with
      | none => simp [hvct, hst] at h
      | some storage =>
        cases hpvc : storage.VolumeClaimTemplate with
        | some pvc =>
          simp [hvct, hst, hpvc] at h
          subst h
          rfl
        | none =>
          cases hq : MustParse ParseQuantity storage.Size with
          | error e => simp [hvct, hst, hpvc, hq] at h
          | ok q =>
            simp [hvct, hst, hpvc, hq] at h
            subst h
            rfl
    · simp [hvct] at h
      subst h
      rfl
  refine ⟨key, ?_, ?_, ?_, ?_, ?_⟩ <;> rw [key]

/-- Instance of C19: a stateful set labelled `team = payments` keeps exactly
that labels map after a claim for `1Gi` was added. -/
theorem persistence_frame_witness :
    ∃ s1, CustomizePersistence sampleParseQuantity sampleStatefulSet
        (sampleStorageCR { Size := "1Gi", VolumeClaimTemplate := none }) =
        Outcome.returned s1 ∧
      s1.Spec.VolumeClaimTemplates.length = 1 ∧
      s1.Labels = some [("team", "payments")] ∧
      s1.toObjectMeta = sampleStatefulSet.toObjectMeta :=
  ⟨(CustomizePersistence sampleParseQuantity sampleStatefulSet
      (sampleStorageCR { Size := "1Gi", VolumeClaimTemplate := none })).target,
   by decide, by decide,
   (persistence_frame sampleParseQuantity sampleStatefulSet
      (CustomizePersistence sampleParseQuantity sampleStatefulSet
        (sampleStorageCR { Size := "1Gi", VolumeClaimTemplate := none })).target
      (sampleStorageCR { Size := "1Gi", VolumeClaimTemplate := none }) (by decide)).2.2.1,
   (persistence_frame sampleParseQuantity sampleStatefulSet
      (CustomizePersistence sampleParseQuantity sampleStatefulSet
        (sampleStorageCR { Size := "1Gi", VolumeClaimTemplate := none })).target
      (sampleStorageCR { Size := "1Gi", VolumeClaimTemplate := none }) (by decide)).2.1⟩

/-! ## Autoscaler replica fields -/

/-- C15: when `Autoscaling.MaxReplicas` is set, CustomizeHPA returns a result whose
`Spec.MaxReplicas` is the value pointed to, whose `Spec.MinReplicas` is the
resource's `MinReplicas` and whose `Spec.TargetCPUUtilizationPercentage` is the
resource's (both as optional values, absent staying absent); when `MaxReplicas`
is unset the call yields no result. -/
theorem hpa_replica_fields (cr : AppsodyApplication) (hpa : HorizontalPodAutoscaler) :
    (∀ m : GoInt32, cr.Spec.Autoscaling.MaxReplicas = some m →
      ∃ h1, CustomizeHPA hpa cr = some h1 ∧
        h1.Spec.MaxReplicas = m ∧
        h1.Spec.MinReplicas = cr.Spec.Autoscaling.MinReplicas ∧
        h1.Spec.TargetCPUUtilizationPercentage =
          cr.Spec.Autoscaling.TargetCPUUtilizationPercentage) ∧
    (cr.Spec.Autoscaling.MaxReplicas = none → CustomizeHPA hpa cr = none) := by
  constructor
  · intro m hmax
    unfold CustomizeHPA
    by_cases hs : cr.Spec.Storage = none <;> simp [hmax, hs]
  · intro hmax
    unfold CustomizeHPA
    simp [hmax]

/-- Instance of C15: `MaxReplicas = 5` with `MinReplicas` absent gives a result
with `MaxReplicas = 5` and `MinReplicas` still absent; with `MaxReplicas` unset
there is no result. -/
theorem hpa_replica_fields_witness :
    (∃ h1, CustomizeHPA sampleHPA (sampleAutoscaledCR "example-app" ⟨5, by decide⟩ none) =
        some h1 ∧
      h1.Spec.MaxReplicas = ⟨5, by decide⟩ ∧
      h1.Spec.MinReplicas = none ∧
      h1.Spec.TargetCPUUtilizationPercentage = none) ∧
    CustomizeHPA sampleHPA (sampleCR "example-app" ⟨8000, by decide⟩ []) = none :=
  ⟨(hpa_replica_fields (sampleAutoscaledCR "example-app" ⟨5, by decide⟩ none) sampleHPA).1
      ⟨5, by decide⟩ rfl,
   (hpa_replica_fields (sampleCR "example-app" ⟨8000, by decide⟩ []) sampleHPA).2 rfl⟩

/-! ## Affinity of the pod template -/

/-- C16: when the resource's architecture list is empty, the `Affinity` field
after CustomizePodSpec is the `Affinity` field before it: absent stays absent,
a prior affinity is neither cleared nor modified. -/
theorem affinity_untouched_without_architecture (cr : AppsodyApplication)
    (pts : PodTemplateSpec) (harch : cr.Spec.Architecture = []) :
    (CustomizePodSpec pts cr).Spec.Affinity = pts.Spec.Affinity := by
  unfold CustomizePodSpec
  by_cases hsa : cr.Spec.ServiceAccountName = "" <;>
    cases hc : pts.Spec.Containers <;>
    simp [hsa, harch, hc]

/-- Instance of C16 at a target that carries `sampleAffinity`. -/
theorem affinity_untouched_without_architecture_witness :
    (sampleCR "example-app" ⟨8000, by decide⟩ []).Spec.Architecture = [] ∧
    (CustomizePodSpec sampleTwoContainerTemplate
      (sampleCR "example-app" ⟨8000, by decide⟩ [])).Spec.Affinity = some sampleAffinity :=
  ⟨rfl,
   affinity_untouched_without_architecture (sampleCR "example-app" ⟨8000, by decide⟩ [])
     sampleTwoContainerTemplate rfl⟩

/-- C17: when the resource's architecture list is non-empty, CustomizePodSpec
replaces the whole `Affinity`: the result is the affinity compiled from a fresh
zero value, the same for every target; its pod-affinity and pod-anti-affinity
parts are absent, and its node affinity is the compiled one, with the required
term over the whole list and one preferred term per architecture. -/
theorem affinity_replaced_with_architecture (cr : AppsodyApplication)
    (pts pts2 : PodTemplateSpec) (harch : cr.Spec.Architecture ≠ []) :
    (CustomizePodSpec pts cr).Spec.Affinity = (CustomizePodSpec pts2 cr).Spec.Affinity ∧
    ∃ a, (CustomizePodSpec pts cr).Spec.Affinity = some a ∧
      a.PodAffinity = none ∧
      a.PodAntiAffinity = none ∧
      a.NodeAffinity =
        some { RequiredDuringSchedulingIgnoredDuringExecution :=
                 some { NodeSelectorTerms := [archTerm cr.Spec.Architecture] }
               PreferredDuringSchedulingIgnoredDuringExecution :=
                 cr.Spec.Architecture.enum.map
                   (fun ia => CustomizeAffinity.term cr.Spec.Architecture.length ia.1 ia.2) } ∧
      (preferredTerms a).length = cr.Spec.Architecture.length := by
  have hlen : cr.Spec.Architecture.length > 0 := List.length_pos.mpr harch
  have key : ∀ p : PodTemplateSpec,
      (CustomizePodSpec p cr).Spec.Affinity = some (CustomizeAffinity Affinity.zero cr) := by
    intro p
    unfold CustomizePodSpec
    by_cases hsa : cr.Spec.ServiceAccountName = "" <;>
      cases hc : p.Spec.Containers <;>
      simp [hsa, hlen, hc]
  refine ⟨by rw [key pts, key pts2], CustomizeAffinity Affinity.zero cr, key pts, ?_, ?_, ?_, ?_⟩
  · simp [CustomizeAffinity, Affinity.zero]
  · simp [CustomizeAffinity, Affinity.zero]
  · simp [CustomizeAffinity, List.enum, CustomizeAffinity_foldl, archTerm, NodeSelectorOpIn]
  · simp [preferredTerms_CustomizeAffinity, List.enum]

/-- Instance of C17: a target with a prior pod affinity and an accumulated
preferred term, and a target without affinity, get the same affinity, with no
pod-affinity part and the two preferred terms of the two architectures. -/
theorem affinity_replaced_with_architecture_witness :
    (sampleCR "example-app" ⟨8000, by decide⟩ ["amd64", "s390x"]).Spec.Architecture ≠ [] ∧
    (CustomizePodSpec sampleTwoContainerTemplate
      (sampleCR "example-app" ⟨8000, by decide⟩ ["amd64", "s390x"])).Spec.Affinity =
    (CustomizePodSpec PodTemplateSpec.zero
      (sampleCR "example-app" ⟨8000, by decide⟩ ["amd64", "s390x"])).Spec.Affinity ∧
    (((CustomizePodSpec sampleTwoContainerTemplate
      (sampleCR "example-app" ⟨8000, by decide⟩ ["amd64", "s390x"])).Spec.Affinity.map
        preferredWeights) = some [2, 1]) :=
  ⟨by decide,
   (affinity_replaced_with_architecture
      (sampleCR "example-app" ⟨8000, by decide⟩ ["amd64", "s390x"])
      sampleTwoContainerTemplate PodTemplateSpec.zero (by decide)).1,
   by decide⟩

/-! ## Service selector and pod labels -/

/-- The selector the service customizer sets. -/
theorem CustomizeService_selector (svc : Service) (cr : AppsodyApplication) :
    (CustomizeService svc cr).Spec.Selector = some [("app.kubernetes.io/name", cr.Name)] := by
  unfold CustomizeService
  cases hp : svc.Spec.Ports <;> simp [hp]

/-- The labels the pod-template customizer sets. -/
theorem CustomizePodSpec_labels (pts : PodTemplateSpec) (cr : AppsodyApplication) :
    (CustomizePodSpec pts cr).Labels = some (GetLabels cr) := by
  unfold CustomizePodSpec
  by_cases hsa : cr.Spec.ServiceAccountName = "" <;>
    by_cases harch : cr.Spec.Architecture.length > 0 <;>
    cases hc : pts.Spec.Containers <;>
    simp [hsa, harch, hc]

/-- C18: the selector set by CustomizeService is a sub-map of the labels set by
CustomizePodSpec for the same resource (every selector entry is a label entry
with the same value); for a resource with a different name the selector is
not a sub-map of the pod labels of that other resource. -/
theorem service_selects_own_pods (cr cr2 : AppsodyApplication) (svc : Service)
    (pts pts2 : PodTemplateSpec) :
    ∃ selector labels,
      (CustomizeService svc cr).Spec.Selector = some selector ∧
      (CustomizePodSpec pts cr).Labels = some labels ∧
      GoMap.subMap selector labels = true ∧
      (∀ k v : String, GoMap.lookup k selector = some v → GoMap.lookup k labels = some v) ∧
      (cr2.Name ≠ cr.Name →
        ∃ labels2, (CustomizePodSpec pts2 cr2).Labels = some labels2 ∧
          GoMap.subMap selector labels2 = false ∧
          GoMap.lookup "app.kubernetes.io/name" selector = some cr.Name ∧
          GoMap.lookup "app.kubernetes.io/name" labels2 = some cr2.Name) := by
  refine ⟨_, _, CustomizeService_selector svc cr, CustomizePodSpec_labels pts cr, ?_, ?_, ?_⟩
  · simp [GoMap.subMap, GoMap.lookup, GetLabels]
  · intro k v hkv
    by_cases hk : "app.kubernetes.io/name" = k
    · simp [GoMap.lookup, hk] at hkv
      simp [GoMap.lookup, GetLabels, hk, hkv]
    · simp [GoMap.lookup, hk] at hkv
  · intro hne
    refine ⟨_, CustomizePodSpec_labels pts2 cr2, ?_, ?_, ?_⟩
    · simp [GoMap.subMap, GoMap.lookup, GetLabels, hne]
    · simp [GoMap.lookup]
    · simp [GoMap.lookup, GetLabels]

/-- Instance of C18 for the resources named `example-app` and `other-app`. -/
theorem service_selects_own_pods_witness :
    (sampleCR "other-app" ⟨8000, by decide⟩ []).Name ≠
      (sampleCR "example-app" ⟨8000, by decide⟩ []).Name ∧
    ∃ selector labels,
      (CustomizeService Service.zero
        (sampleCR "example-app" ⟨8000, by decide⟩ [])).Spec.Selector = some selector ∧
      (CustomizePodSpec samplePodTemplate
        (sampleCR "example-app" ⟨8000, by decide⟩ [])).Labels = some labels ∧
      GoMap.subMap selector labels = true ∧
      ∃ labels2,
        (CustomizePodSpec samplePodTemplate
          (sampleCR "other-app" ⟨8000, by decide⟩ [])).Labels = some labels2 ∧
        GoMap.subMap selector labels2 = false := by
  obtain ⟨selector, labels, hsel, hlab, hsub, _, hother⟩ :=
    service_selects_own_pods (sampleCR "example-app" ⟨8000, by decide⟩ [])
      (sampleCR "other-app" ⟨8000, by decide⟩ []) Service.zero samplePodTemplate
      samplePodTemplate
  obtain ⟨labels2, hlab2, hsub2, _, _⟩ := hother (by decide)
  exact ⟨by decide, selector, labels, hsel, hlab, hsub, labels2, hlab2, hsub2⟩

/-! ## Containers of the pod template -/

/-- C20: on a target with `k` containers the result of CustomizePodSpec has
`max 1 k` containers, every container at an index `≥ 1` is the original one,
container `0` has `max 1 p` ports, where `p` is its prior number of ports (of the
zero container when `k = 0`), its ports at an index `≥ 1` are the prior ones,
and its command, arguments and working directory are the prior ones. -/
theorem pod_template_manages_container0_only (cr : AppsodyApplication)
    (pts : PodTemplateSpec) :
    (CustomizePodSpec pts cr).Spec.Containers.length = max 1 pts.Spec.Containers.length ∧
    (∀ j : Nat, (CustomizePodSpec pts cr).Spec.Containers[j + 1]? =
      pts.Spec.Containers[j + 1]?) ∧
    ∃ c0, (CustomizePodSpec pts cr).Spec.Containers[0]? = some c0 ∧
      c0.Ports.length = max 1 (pts.Spec.Containers.headD Container.zero).Ports.length ∧
      (∀ j : Nat, c0.Ports[j + 1]? =
        (pts.Spec.Containers.headD Container.zero).Ports[j + 1]?) ∧
      c0.Command = (pts.Spec.Containers.headD Container.zero).Command ∧
      c0.Args = (pts.Spec.Containers.headD Container.zero).Args ∧
      c0.WorkingDir = (pts.Spec.Containers.headD Container.zero).WorkingDir := by
  have hc0 : ∀ c : Container,
      (CustomizePodSpec.container0 cr c).Ports.length = max 1 c.Ports.length ∧
      (∀ j : Nat, (CustomizePodSpec.container0 cr c).Ports[j + 1]? = c.Ports[j + 1]?) ∧
      (CustomizePodSpec.container0 cr c).Command = c.Command ∧
      (CustomizePodSpec.container0 cr c).Args = c.Args ∧
      (CustomizePodSpec.container0 cr c).WorkingDir = c.WorkingDir := by
    intro c
    unfold CustomizePodSpec.container0
    cases hp : c.Ports with
    | nil => simp [hp, List.modifyHead]
    | cons p rest =>
      refine ⟨by simp [hp, List.modifyHead], fun j => by simp [hp, List.modifyHead],
        by simp [hp], by simp [hp], by simp [hp]⟩
  rw [CustomizePodSpec_containers]
  cases hcs : pts.Spec.Containers with
  | nil =>
    exact ⟨by simp, fun j => by simp, CustomizePodSpec.container0 cr Container.zero, by simp,
      hc0 Container.zero⟩
  | cons c rest =>
    exact ⟨by simp, fun j => by simp, CustomizePodSpec.container0 cr c, by simp, hc0 c⟩

end Appsody
